import Mathlib

/-!
Shallow embedding of the icda-prototype query-routing layer.

The Python modules under `src/icda/` are translated definition by definition:
`datasource.py` (DataSource.lookup / DataSource.search and the index builders),
`agents/intent_agent.py` (IntentAgent.classify and helpers),
`agents/context_agent.py` (ContextAgent.extract and helpers),
`agents/nova_agent.py` (NovaAgent.generate, _fallback_response, _estimate_confidence),
`router.py` (Router.route).

Modelling conventions:
* Python `str` is modelled by `String`, restricted to ASCII text: `str.lower`,
  `str.upper`, `str.strip`, `str.split` are given their ASCII semantics.
* Python `float` is modelled by `ℚ`; `round(x, 3)` is modelled exactly as
  round-half-to-even on the rational value (IEEE representation error of the
  Python floats is not modelled).
* Python `dict` (insertion ordered) is modelled by an association list with
  insert-or-update semantics.
* Regular expressions are modelled by an explicit regex AST with a
  Brzozowski-derivative matcher, plus word-boundary handling for the `\b`
  anchors that the source patterns use at their ends.
* Collaborators that live outside `src/` (session store, cache, guardrails,
  vector router, the Bedrock call itself) are modelled from the spec as
  explicit function parameters / state, marked `Modelled from the spec:`.
-/

namespace Icda

/-! ### Python string primitives (ASCII fragment) -/

/-- Python `\s` / `str.split()` whitespace: space, tab, newline, return,
vertical tab, form feed. -/
def pySpace (c : Char) : Bool :=
  c = ' ' || c = '\t' || c = '\n' || c = '\r' || c = '\x0b' || c = '\x0c'

/-- ASCII lower-casing of one character (models `str.lower` on ASCII). -/
def lowerChar (c : Char) : Char :=
  if 'A' ≤ c && c ≤ 'Z' then Char.ofNat (c.toNat + 32) else c

/-- ASCII upper-casing of one character (models `str.upper` on ASCII). -/
def upperChar (c : Char) : Char :=
  if 'a' ≤ c && c ≤ 'z' then Char.ofNat (c.toNat - 32) else c

/-- Models Python `str.lower()` (ASCII). -/
def pyLower (s : String) : String := ⟨s.data.map lowerChar⟩

/-- Models Python `str.upper()` (ASCII). -/
def pyUpper (s : String) : String := ⟨s.data.map upperChar⟩

/-- Models Python `str.strip()`. -/
def pyStrip (s : String) : String :=
  ⟨((s.data.dropWhile pySpace).reverse.dropWhile pySpace).reverse⟩

/-- Helper for `pyWords`: split a character list on whitespace runs. -/
def splitWsAux : List Char → List Char → List (List Char)
  | [], acc => if acc.isEmpty then [] else [acc.reverse]
  | c :: cs, acc =>
    if pySpace c then
      if acc.isEmpty then splitWsAux cs [] else acc.reverse :: splitWsAux cs []
    else splitWsAux cs (c :: acc)

/-- Models Python `str.split()` (no argument: split on whitespace runs,
dropping empty fields). -/
def pyWords (s : String) : List String := (splitWsAux s.data []).map String.mk

/-- Does `cs` begin with `pat`? (models `str.startswith`). -/
def beginsWith : List Char → List Char → Bool
  | _, [] => true
  | [], _ :: _ => false
  | c :: cs, p :: ps => c = p && beginsWith cs ps

/-- Does `cs` contain `pat` as a contiguous sublist? -/
def containsSub (cs pat : List Char) : Bool :=
  match cs with
  | [] => pat.isEmpty
  | _ :: rest => beginsWith cs pat || containsSub rest pat

/-- Models the Python substring test `sub in s`. -/
def strContains (s sub : String) : Bool := containsSub s.data sub.data

/-! ### Python dict / number primitives -/

/-- Models `dict.get(k)` on an insertion-ordered association list. -/
def dictGet (k : String) : List (String × α) → Option α
  | [] => none
  | (k', v) :: rest => if k' = k then some v else dictGet k rest

/-- Models `d[k] = v` on an insertion-ordered association list: update in
place if the key exists, else append. -/
def dictInsert (k : String) (v : α) : List (String × α) → List (String × α)
  | [] => [(k, v)]
  | (k', v') :: rest => if k' = k then (k, v) :: rest else (k', v') :: dictInsert k v rest

/-- Models Python `round(x, 3)`: round half to even at the third decimal,
on the exact rational value. -/
def pyRound3 (x : ℚ) : ℚ :=
  let y := x * 1000
  let f := ⌊y⌋
  let r := y - (f : ℚ)
  let n : ℤ := if r < 1/2 then f else if 1/2 < r then f + 1 else if f % 2 = 0 then f else f + 1
  (n : ℚ) / 1000

/-- Clamp to `[0, 1]`, models `max(0.0, min(1.0, x))`. -/
def clamp01 (x : ℚ) : ℚ := max 0 (min 1 x)

/-- Models Python `str.zfill(w)`: left-pad with `'0'` to width `w`,
keeping a leading sign in front of the padding. -/
def zfill (s : String) (w : Nat) : String :=
  match s.data with
  | c :: rest =>
    if c = '+' || c = '-' then
      ⟨c :: (List.replicate (w - (rest.length + 1)) '0' ++ rest)⟩
    else ⟨List.replicate (w - s.data.length) '0' ++ s.data⟩
  | [] => ⟨List.replicate w '0'⟩

/-- Python truthiness of an optional string (`None` and `""` are falsy). -/
def optStrTruthy : Option String → Bool
  | none => false
  | some s => !(s = "")

/-- Python truthiness of an optional int (`None` and `0` are falsy). -/
def optIntTruthy : Option Int → Bool
  | none => false
  | some n => !(n = 0)

/-- Python truthiness of an optional bool (`None` and `False` are falsy). -/
def optBoolTruthy : Option Bool → Bool
  | none => false
  | some b => b

/-! ### Customer records (the dict shape used throughout `datasource.py`) -/

/-- One customer record. Python records are dicts; fields read via
`c.get(k, "")` are modelled as plain strings where a missing key and `""`
are interchangeable in every use site, and `crid` (tested with `"crid" in c`)
is an `Option`. -/
structure Customer where
  crid : Option String := none
  name : String := ""
  city : String := ""
  state : String := ""
  address : String := ""
  customer_type : String := ""
  status : String := ""
  move_count : Int := 0
  created_date : Option String := none
deriving DecidableEq

/-! ### datasource.py -/

/-- `STATE_CODE_TO_NAME` from `datasource.py` (insertion order preserved). -/
def STATE_CODE_TO_NAME : List (String × String) := [
  ("AL", "Alabama"), ("AK", "Alaska"), ("AZ", "Arizona"), ("AR", "Arkansas"),
  ("CA", "California"), ("CO", "Colorado"), ("CT", "Connecticut"), ("DE", "Delaware"),
  ("FL", "Florida"), ("GA", "Georgia"), ("HI", "Hawaii"), ("ID", "Idaho"),
  ("IL", "Illinois"), ("IN", "Indiana"), ("IA", "Iowa"), ("KS", "Kansas"),
  ("KY", "Kentucky"), ("LA", "Louisiana"), ("ME", "Maine"), ("MD", "Maryland"),
  ("MA", "Massachusetts"), ("MI", "Michigan"), ("MN", "Minnesota"), ("MS", "Mississippi"),
  ("MO", "Missouri"), ("MT", "Montana"), ("NE", "Nebraska"), ("NV", "Nevada"),
  ("NH", "New Hampshire"), ("NJ", "New Jersey"), ("NM", "New Mexico"), ("NY", "New York"),
  ("NC", "North Carolina"), ("ND", "North Dakota"), ("OH", "Ohio"), ("OK", "Oklahoma"),
  ("OR", "Oregon"), ("PA", "Pennsylvania"), ("PR", "Puerto Rico"), ("RI", "Rhode Island"),
  ("SC", "South Carolina"), ("SD", "South Dakota"), ("TN", "Tennessee"), ("TX", "Texas"),
  ("UT", "Utah"), ("VT", "Vermont"), ("VA", "Virginia"), ("WA", "Washington"),
  ("WV", "West Virginia"), ("WI", "Wisconsin"), ("WY", "Wyoming"), ("DC", "Washington DC")]

/-- The CRID index `_by_crid` built by `DataSource._build_indexes`:
`{c["crid"]: c for c in self._customers if "crid" in c}`. -/
def byCrid (customers : List Customer) : List (String × Customer) :=
  customers.foldl (fun d c =>
    match c.crid with
    | some k => dictInsert k c d
    | none => d) []

/-- The state index `_by_state` built by `DataSource._build_indexes`:
group customers by upper-cased state, skipping empty states, appending in
data order (`setdefault(state, []).append(c)`). -/
def byState (customers : List Customer) : List (String × List Customer) :=
  customers.foldl (fun d c =>
    let st := pyUpper c.state
    if st = "" then d
    else
      match dictGet st d with
      | some l => dictInsert st (l ++ [c]) d
      | none => d ++ [(st, [c])]) []

/-- The `state_counts` dict built by `DataSource._build_metadata`. -/
def stateCounts (customers : List Customer) : List (String × Nat) :=
  customers.foldl (fun d c =>
    let st := pyUpper c.state
    if st = "" then d
    else dictInsert st ((dictGet st d).getD 0 + 1) d) []

/-- Stable insertion keeping counts in descending order: insert after every
entry with a count `≥` the new one. -/
def insertByCountDesc (x : String × Nat) : List (String × Nat) → List (String × Nat)
  | [] => [x]
  | y :: ys => if y.2 < x.2 then x :: y :: ys else y :: insertByCountDesc x ys

/-- Models `sorted(state_counts.items(), key=lambda x: x[1], reverse=True)`
(a stable descending sort by count). -/
def sortByCountDesc (l : List (String × Nat)) : List (String × Nat) :=
  l.foldl (fun acc x => insertByCountDesc x acc) []

/-- `metadata.available_states` from `DataSource._build_metadata`: state
codes sorted by count descending. -/
def availableStates (customers : List Customer) : List String :=
  (sortByCountDesc (stateCounts customers)).map Prod.fst

/-- Helper for `distinctList`: drop elements already seen. -/
def distinctAux (seen : List String) : List String → List String
  | [] => []
  | s :: rest => if seen.contains s then distinctAux seen rest else s :: distinctAux (s :: seen) rest

/-- Keep first occurrences only (models building a Python `set` before
`sorted`, which erases multiplicity). -/
def distinctList (l : List String) : List String := distinctAux [] l

/-- Stable ascending insertion for strings. -/
def insertStrAsc (x : String) : List String → List String
  | [] => [x]
  | y :: ys => if x < y then x :: y :: ys else y :: insertStrAsc x ys

/-- Models Python `sorted` on a list of strings. -/
def sortedStrings (l : List String) : List String :=
  l.foldl (fun acc x => insertStrAsc x acc) []

/-- Models Python `min` on a list of strings (`none` for an empty list). -/
def pyMinStr (l : List String) : Option String :=
  l.foldl (fun acc s =>
    match acc with
    | none => some s
    | some m => if s < m then some s else some m) none

/-- Models Python `max` on a list of strings (`none` for an empty list). -/
def pyMaxStr (l : List String) : Option String :=
  l.foldl (fun acc s =>
    match acc with
    | none => some s
    | some m => if m < s then some s else some m) none

/-- `DataSourceMetadata` from `datasource.py`. -/
structure DataSourceMetadata where
  total_records : Nat := 0
  available_states : List String := []
  state_counts : List (String × Nat) := []
  available_cities : List String := []
  customer_types : List String := []
  date_range : Option (String × String) := none
  last_updated : Option String := none
  source_type : String := "unknown"
  source_uri : String := ""
deriving DecidableEq

/-- `DataSource._build_metadata`: auto-populate metadata from the loaded
customer list. -/
def buildMetadata (customers : List Customer) : DataSourceMetadata :=
  let cities := sortedStrings (distinctList ((customers.filter (fun c => !(c.city = ""))).map (·.city)))
  let ctypes := sortedStrings (distinctList ((customers.filter (fun c => !(c.customer_type = ""))).map (·.customer_type)))
  let dates := (customers.filterMap (·.created_date)).filter (fun d => !(d = ""))
  { total_records := customers.length
    available_states := availableStates customers
    state_counts := stateCounts customers
    available_cities := cities
    customer_types := ctypes
    date_range :=
      match pyMinStr dates, pyMaxStr dates with
      | some lo, some hi => some (lo, hi)
      | _, _ => none }

/-- Outcome of `DataSource.lookup`: the `{"success": True, "data": ...}` /
`{"success": False, "error": ...}` dicts. -/
inductive LookupOutcome where
  | found (data : Customer)
  | notFound (error : String)
deriving DecidableEq

/-- The zero-padded key variants tried by `DataSource.lookup` for an
upper-cased input that starts with `CRID-`: widths 6, 5, 3, then the
literal form. -/
def cridVariants (cridU : String) : List String :=
  let num : String := ⟨cridU.data.drop 5⟩
  ["CRID-" ++ zfill num 6, "CRID-" ++ zfill num 5, "CRID-" ++ zfill num 3, cridU]

/-- First index hit among the candidate keys (the `for fmt in (...)` loop in
`DataSource.lookup`; loaded records are non-empty dicts, so the truthiness
test `if data := ...get(fmt)` is modelled as presence). -/
def firstHit (fmts : List String) (idx : List (String × Customer)) : Option Customer :=
  match fmts with
  | [] => none
  | k :: rest =>
    match dictGet k idx with
    | some c => some c
    | none => firstHit rest idx

/-- `DataSource.lookup` over a loaded customer list. -/
def lookup (customers : List Customer) (crid : String) : LookupOutcome :=
  let cridU := pyUpper crid
  if beginsWith cridU.data "CRID-".data then
    match firstHit (cridVariants cridU) (byCrid customers) with
    | some c => .found c
    | none => .notFound ("CRID " ++ cridU ++ " not found")
  else .notFound ("CRID " ++ cridU ++ " not found")

/-- The keyword arguments of `DataSource.search` (all default `None`). -/
structure SearchFilters where
  state : Option String := none
  city : Option String := none
  min_moves : Option Int := none
  customer_type : Option String := none
  has_apartment : Option Bool := none
  limit : Option Int := none
deriving DecidableEq

/-- Outcome of `DataSource.search`: either the structured
`state_not_available` error dict or the `{"success": True, ...}` dict. -/
inductive SearchOutcome where
  | stateNotAvailable (requested_state requested_state_name : String)
      (available_states : List String)
      (available_states_with_counts : List (String × Nat))
      (suggestion : String)
  | ok (total : Nat) (data : List Customer)
deriving DecidableEq

/-- The candidate-selection step of `DataSource.search`: validate the state
filter against the state index; `none` means the structured error is
returned, `some base` is the record list the remaining filters run over. -/
def searchBase (customers : List Customer) (f : SearchFilters) : Option (List Customer) :=
  if optStrTruthy f.state then
    match dictGet (pyUpper (f.state.getD "")) (byState customers) with
    | some l => some l
    | none => none
  else some customers

/-- The filter cascade of `DataSource.search` (`min_moves`, `city`,
`customer_type`, `has_apartment`; `casefold` is ASCII lower here). -/
def applyFilters (f : SearchFilters) (results : List Customer) : List Customer :=
  let r1 := if optIntTruthy f.min_moves
    then results.filter (fun c => f.min_moves.getD 0 ≤ c.move_count) else results
  let r2 := if optStrTruthy f.city
    then r1.filter (fun c => strContains (pyLower c.city) (pyLower (f.city.getD ""))) else r1
  let r3 := if optStrTruthy f.customer_type
    then r2.filter (fun c => pyUpper c.customer_type = pyUpper (f.customer_type.getD "")) else r2
  if optBoolTruthy f.has_apartment
    then r3.filter (fun c => strContains (pyLower c.address) "apt" || strContains (pyLower c.address) "unit")
    else r3

/-- Python slice `l[:limit]` for an integer bound (negative bounds drop from
the end). -/
def pySliceTake (l : List α) (limit : Int) : List α :=
  if 0 ≤ limit then l.take limit.toNat else l.take (l.length - (-limit).toNat)

/-- `DataSource.search` over a loaded customer list. -/
def search (customers : List Customer) (f : SearchFilters) : SearchOutcome :=
  match searchBase customers f with
  | none =>
    let state := f.state.getD ""
    let su := pyUpper state
    let name := (dictGet su STATE_CODE_TO_NAME).getD state
    .stateNotAvailable su name (availableStates customers) (stateCounts customers)
      (name ++ " is not in our database. We have data for " ++
        toString (availableStates customers).length ++ " states.")
  | some base =>
    let results := applyFilters f base
    let data := if optIntTruthy f.limit then pySliceTake results (f.limit.getD 0) else results
    .ok results.length data

/-! ### A small regex engine (for the `re` patterns used by the agents)

The agents' patterns are simple: literal words joined by `\s+`/`\s*`,
optional suffixes, digit runs, with `\b` anchors at the pattern ends.
`re.search` existence is modelled as: some segment of the text matches the
anchored core, with the word-boundary condition holding at the segment ends
that carry a `\b`. -/

/-- Regex AST: empty word, character class, concatenation, alternation,
Kleene star. The empty language is `cls (fun _ => false)`. -/
inductive RE where
  | eps : RE
  | cls : (Char → Bool) → RE
  | seq : RE → RE → RE
  | alt : RE → RE → RE
  | star : RE → RE

/-- Does the regex accept the empty word? -/
def RE.nullable : RE → Bool
  | .eps => true
  | .cls _ => false
  | .seq a b => a.nullable && b.nullable
  | .alt a b => a.nullable || b.nullable
  | .star _ => true

/-- Brzozowski derivative with respect to one character. -/
def RE.deriv : RE → Char → RE
  | .eps, _ => .cls (fun _ => false)
  | .cls p, c => if p c then .eps else .cls (fun _ => false)
  | .seq a b, c =>
    if a.nullable then .alt (.seq (a.deriv c) b) (b.deriv c) else .seq (a.deriv c) b
  | .alt a b, c => .alt (a.deriv c) (b.deriv c)
  | .star a, c => .seq (a.deriv c) (.star a)

/-- Full (anchored) match of a character list. -/
def RE.matchesList (r : RE) (cs : List Char) : Bool := (cs.foldl RE.deriv r).nullable

/-- Python `\w`: letters, digits, underscore (ASCII). -/
def wordChar (c : Char) : Bool := c.isAlpha || c.isDigit || c = '_'

/-- Python `\b` at position `i` of `cs`: exactly one of the adjacent
characters is a word character. -/
def boundaryAt (cs : List Char) (i : Nat) : Bool :=
  let before :=
    match i, cs.get? (i - 1) with
    | 0, _ => false
    | _ + 1, some c => wordChar c
    | _ + 1, none => false
  let after :=
    match cs.get? i with
    | some c => wordChar c
    | none => false
  before != after

/-- A source pattern: a core regex with optional `\b` anchors at its left
and right end. -/
structure Pat where
  bL : Bool
  bR : Bool
  re : RE

/-- Is there a match of `r` starting at position `i`, respecting a trailing
`\b` when `bR` is set? -/
def searchSegs (r : RE) (bR : Bool) (cs : List Char) (i : Nat) : Bool :=
  (List.range (cs.length + 1 - i)).any fun k =>
    (!bR || boundaryAt cs (i + k)) && r.matchesList ((cs.drop i).take k)

/-- Existence semantics of `re.search(pattern, text)`. -/
def Pat.search (p : Pat) (cs : List Char) : Bool :=
  (List.range (cs.length + 1)).any fun i =>
    (!p.bL || boundaryAt cs i) && searchSegs p.re p.bR cs i

/-- Single literal character. -/
def rlit1 (c : Char) : RE := .cls (fun x => x = c)

/-- Literal string. -/
def rlit (s : String) : RE := s.data.foldr (fun c r => .seq (rlit1 c) r) .eps

/-- Concatenation of a pattern list. -/
def rcat (l : List RE) : RE := l.foldr .seq .eps

/-- `r?`. -/
def ropt (r : RE) : RE := .alt r .eps

/-- `r+`. -/
def rplus (r : RE) : RE := .seq r (.star r)

/-- `\s+`. -/
def rws : RE := rplus (.cls pySpace)

/-- `\s*`. -/
def rws0 : RE := .star (.cls pySpace)

/-- `\d+`. -/
def rdigits : RE := rplus (.cls Char.isDigit)

/-- Optional literal suffix, e.g. `s?`. -/
def ropts (s : String) : RE := ropt (rlit s)

/-- `\b core \b` pattern. -/
def pw (res : List RE) : Pat := ⟨true, true, rcat res⟩

/-- `\b core` pattern (no trailing anchor). -/
def pwL (res : List RE) : Pat := ⟨true, false, rcat res⟩

/-- `_match_patterns`: any of the patterns matches the text. -/
def matchPatterns (cs : List Char) (ps : List Pat) : Bool := ps.any (·.search cs)

/-! ### agents/intent_agent.py -/

/-- The record-ID token pattern `\bcrid[-\s]?\d+`, the first (and
CRID-specific) LOOKUP pattern. -/
def cridTokenPat : Pat :=
  pwL [rlit "crid", ropt (.cls (fun c => c = '-' || pySpace c)), rdigits]

/-- `IntentAgent.LOOKUP_PATTERNS`. -/
def LOOKUP_PATTERNS : List Pat := [
  cridTokenPat,
  pwL [rlit "customer", rws, rlit "id"],
  pw [rlit "look", rws0, rlit "up"],
  pw [rlit "find", rws, rlit "customer"],
  pw [rlit "get", rws, rlit "customer"],
  pw [rlit "show", rws, rlit "me", rws, rlit "customer"],
  pw [rlit "pull", rws, rlit "up"],
  pw [rlit "customer", rws, rlit "record"],
  pw [rlit "customer", rws, rlit "details"]]

/-- `IntentAgent.STATS_PATTERNS`. -/
def STATS_PATTERNS : List Pat := [
  pw [rlit "how", rws, rlit "many"],
  pw [rlit "count"],
  pw [rlit "statistic", ropts "s"],
  pw [rlit "total", ropts "s"],
  pw [rlit "per", rws, rlit "state"],
  pw [rlit "by", rws, rlit "state"],
  pw [rlit "breakdown"],
  pw [rlit "number", ropts "s"],
  pw [rlit "summary"],
  pw [rlit "aggregate"]]

/-- `IntentAgent.SEARCH_PATTERNS`. -/
def SEARCH_PATTERNS : List Pat := [
  pw [rlit "search"],
  pw [rlit "find"],
  pw [rlit "show"],
  pw [rlit "list"],
  pw [rlit "give", rws, rlit "me"],
  pw [rlit "customer", ropts "s", rws, rlit "in"],
  pw [rlit "people", rws, rlit "in"],
  pw [rlit "who", rws, rlit "live", ropts "s"],
  pw [rlit "resident", ropts "s"],
  pw [rlit "living", rws, rlit "in"],
  pw [rlit "from"],
  pw [rlit "moved"],
  pw [rlit "mover", ropts "s"],
  pw [rlit "relocated"],
  pw [rlit "high", rws, rlit "mover", ropts "s"],
  pw [rlit "frequent"]]

/-- `IntentAgent.ANALYSIS_PATTERNS`. -/
def ANALYSIS_PATTERNS : List Pat := [
  pw [rlit "trend"],
  pw [rlit "pattern"],
  pw [rlit "analyze"],
  pw [rlit "analysis"],
  pw [rlit "insight"],
  pw [rlit "why"],
  pw [rlit "migration"],
  pw [rlit "movement"],
  pw [rlit "behavior"]]

/-- `IntentAgent.COMPARISON_PATTERNS`. -/
def COMPARISON_PATTERNS : List Pat := [
  pw [rlit "compare"],
  pw [rlit "vs", ropts "."],
  pw [rlit "versus"],
  pw [rlit "difference"],
  pw [rlit "between"],
  pw [rlit "comparison"]]

/-- `IntentAgent.RECOMMENDATION_PATTERNS`. -/
def RECOMMENDATION_PATTERNS : List Pat := [
  pw [rlit "recommend"],
  pw [rlit "suggest"],
  pw [rlit "should"],
  pw [rlit "predict"],
  pw [rlit "forecast"],
  pw [rlit "which", rws, rlit "customer", ropts "s"]]

/-- `IntentAgent.ADDRESS_PATTERNS`. -/
def ADDRESS_PATTERNS : List Pat := [
  pw [rlit "address"],
  pw [rlit "verify"],
  pw [rlit "validate"],
  pw [rlit "normalize"],
  pw [rlit "street"],
  pw [rlit "zip", rws0, rlit "code"],
  pw [rlit "postal"]]

/-- `IntentAgent.KNOWLEDGE_PATTERNS`. -/
def KNOWLEDGE_PATTERNS : List Pat := [
  pw [rlit "policy"],
  pw [rlit "procedure"],
  pw [rlit "documentation"],
  pw [rlit "how", rws, rlit "do", rws, rlit "i"],
  pw [rlit "what", rws, rlit "is", rws, rlit "the", rws, rlit "process"],
  pw [rlit "rule", ropts "s"],
  pw [rlit "guideline", ropts "s"]]

/-- `IntentAgent.COMPLEX_INDICATORS`. -/
def COMPLEX_INDICATORS : List Pat := [
  pw [rlit "trend"],
  pw [rlit "pattern"],
  pw [rlit "analyze"],
  pw [rlit "analysis"],
  pw [rlit "recommend"],
  pw [rlit "predict"],
  pw [rlit "insight"],
  pw [rlit "why"],
  pw [rlit "forecast"],
  pw [rlit "migration"],
  pw [rlit "behavior"]]

/-- `IntentAgent.MEDIUM_INDICATORS`. -/
def MEDIUM_INDICATORS : List Pat := [
  pw [rlit "compare"],
  pw [rlit "filter"],
  pw [rlit "between"],
  pw [rlit "summary"],
  pw [rlit "per", rws, rlit "state"],
  pw [rlit "who", rws, rlit "moved"],
  pw [rlit "which"],
  pw [rlit "multiple"],
  pw [rlit "several"],
  pw [rlit "all"],
  pw [rlit "most"],
  pw [rlit "least"],
  pw [rlit "top"],
  pw [rlit "bottom"]]

/-- Modelled from the spec: `QueryIntent` lives in `icda/classifier.py`,
which is not under `src/`; the spec (§3) fixes the member set. -/
inductive QueryIntent where
  | LOOKUP | SEARCH | STATS | ANALYSIS | COMPARISON | RECOMMENDATION
deriving DecidableEq

/-- Modelled from the spec: `QueryComplexity` lives in `icda/classifier.py`,
which is not under `src/`; the spec (§3) fixes the member set. -/
inductive QueryComplexity where
  | SIMPLE | MEDIUM | COMPLEX
deriving DecidableEq

/-- `QueryDomain` from `agents/models.py`. -/
inductive QueryDomain where
  | CUSTOMER | ADDRESS | KNOWLEDGE | STATS | GENERAL
deriving DecidableEq

/-- `IntentResult` from `agents/models.py`; `patterns_matched` is the
`raw_signals["patterns_matched"]` list. -/
structure IntentResult where
  primary_intent : QueryIntent
  secondary_intents : List QueryIntent := []
  confidence : ℚ := 1/2
  domains : List QueryDomain := []
  complexity : QueryComplexity := .MEDIUM
  suggested_tools : List String := []
  patterns_matched : List String := []
deriving DecidableEq

/-- The bare `crid[-\s]?\d+` check (no `\b`, same core as `cridTokenPat`)
used inside `IntentAgent._detect_intent` to boost LOOKUP confidence. -/
def cridStrict : Pat := ⟨false, false, cridTokenPat.re⟩

/-- `IntentAgent._detect_intent`: ordered first-match-wins category scan;
returns (intent, base confidence, the `patterns_matched` signal list). -/
def detectIntent (q : List Char) : QueryIntent × ℚ × List String :=
  if matchPatterns q LOOKUP_PATTERNS then
    if cridStrict.search q then (.LOOKUP, 19/20, ["lookup"]) else (.LOOKUP, 4/5, ["lookup"])
  else if matchPatterns q STATS_PATTERNS then (.STATS, 17/20, ["stats"])
  else if matchPatterns q COMPARISON_PATTERNS then (.COMPARISON, 4/5, ["comparison"])
  else if matchPatterns q ANALYSIS_PATTERNS then (.ANALYSIS, 4/5, ["analysis"])
  else if matchPatterns q RECOMMENDATION_PATTERNS then (.RECOMMENDATION, 3/4, ["recommendation"])
  else if matchPatterns q SEARCH_PATTERNS then (.SEARCH, 17/20, ["search"])
  else (.SEARCH, 3/5, ["default_search"])

/-- `IntentAgent._detect_secondary_intents`: other matching categories, in
declaration order, capped at 2. -/
def detectSecondaryIntents (q : List Char) (primary : QueryIntent) : List QueryIntent :=
  let pairs : List (QueryIntent × List Pat) := [
    (.LOOKUP, LOOKUP_PATTERNS), (.STATS, STATS_PATTERNS), (.SEARCH, SEARCH_PATTERNS),
    (.ANALYSIS, ANALYSIS_PATTERNS), (.COMPARISON, COMPARISON_PATTERNS),
    (.RECOMMENDATION, RECOMMENDATION_PATTERNS)]
  ((pairs.filter (fun p => p.1 != primary && matchPatterns q p.2)).map Prod.fst).take 2

/-- `IntentAgent._detect_domains`. -/
def detectDomains (q : List Char) (primary : QueryIntent) : List QueryDomain :=
  let d0 : List QueryDomain :=
    if primary = .LOOKUP || primary = .SEARCH || primary = .STATS then [.CUSTOMER] else []
  let d1 := if matchPatterns q ADDRESS_PATTERNS then d0 ++ [.ADDRESS] else d0
  let d2 := if matchPatterns q KNOWLEDGE_PATTERNS then d1 ++ [.KNOWLEDGE] else d1
  let d3 :=
    if (primary = .STATS || matchPatterns q STATS_PATTERNS) && !(d2.contains .STATS)
    then d2 ++ [.STATS] else d2
  if d3.isEmpty then [.CUSTOMER] else d3

/-- `IntentAgent._assess_complexity`: indicator patterns first, then the
word-count thresholds. -/
def assessComplexity (q : List Char) : QueryComplexity :=
  if matchPatterns q COMPLEX_INDICATORS then .COMPLEX
  else if matchPatterns q MEDIUM_INDICATORS then .MEDIUM
  else
    let wc := (splitWsAux q []).length
    if 15 < wc then .COMPLEX else if 8 < wc then .MEDIUM else .SIMPLE

/-- `IntentAgent._suggest_tools`: static mapping, deduplicated preserving
order. -/
def suggestTools (primary : QueryIntent) (domains : List QueryDomain)
    (complexity : QueryComplexity) : List String :=
  let t0 : List String :=
    match primary with
    | .LOOKUP => ["lookup_crid"]
    | .SEARCH =>
      if complexity != .SIMPLE then ["search_customers", "fuzzy_search", "semantic_search"]
      else ["search_customers"]
    | .STATS => ["get_stats"]
    | .ANALYSIS => ["get_stats", "search_customers", "semantic_search"]
    | .COMPARISON => ["get_stats", "search_customers", "semantic_search"]
    | .RECOMMENDATION => ["search_customers", "semantic_search", "get_stats"]
  let t1 := if domains.contains .ADDRESS then t0 ++ ["verify_address"] else t0
  let t2 := if domains.contains .KNOWLEDGE then t1 ++ ["search_knowledge"] else t1
  let t3 :=
    if complexity = .COMPLEX && !(t2.contains "hybrid_search")
    then t2 ++ ["hybrid_search"] else t2
  distinctList t3

/-- `IntentAgent._calculate_confidence`: +0.1 capped at 1 when more than one
category matched, ×0.9 below 3 words, ×0.85 above 20 words, round to 3
decimals. -/
def calculateConfidence (q : List Char) (intentConfidence : ℚ)
    (patternsMatched : List String) : ℚ :=
  let c1 := if 1 < patternsMatched.length then min (intentConfidence + 1/10) 1 else intentConfidence
  let wc := (splitWsAux q []).length
  let c2 := if wc < 3 then c1 * (9/10) else c1
  let c3 := if 20 < wc then c2 * (17/20) else c2
  pyRound3 c3

/-- `IntentAgent.classify` (the optional vector index is never consulted in
the source; classification is purely pattern based). -/
def classify (query : String) : IntentResult :=
  let q := (pyStrip (pyLower query)).data
  let det := detectIntent q
  let primary := det.1
  let intentConfidence := det.2.1
  let patterns := det.2.2
  { primary_intent := primary
    secondary_intents := detectSecondaryIntents q primary
    confidence := calculateConfidence q intentConfidence patterns
    domains := detectDomains q primary
    complexity := assessComplexity q
    suggested_tools := suggestTools primary (detectDomains q primary) (assessComplexity q)
    patterns_matched := patterns }

/-! ### agents/context_agent.py -/

/-- One item of a tool-result content list: either a `{"json": {...}}` item
carrying a `results` record list, or anything else. -/
inductive TRItem where
  | jsonItem (results : List Customer)
  | otherItem
deriving DecidableEq

/-- One content block of a conversation message. -/
inductive MsgBlock where
  | textBlock (s : String)
  | toolResultBlock (content : List TRItem)
  | otherBlock
deriving DecidableEq

/-- Message content: Python allows a raw string or a block list. -/
inductive MsgContent where
  | str (s : String)
  | blocks (l : List MsgBlock)
deriving DecidableEq

/-- A conversation message (`{"role": ..., "content": ...}`). -/
structure Msg where
  role : String
  content : MsgContent
deriving DecidableEq

/-- Join with a separator (Python `sep.join`). -/
def joinWith (sep : String) : List String → String
  | [] => ""
  | s :: rest => rest.foldl (fun acc t => acc ++ sep ++ t) s

/-- `ContextAgent._get_message_text`: a raw string, or the space-joined text
blocks. -/
def getMessageText (m : Msg) : String :=
  match m.content with
  | .str s => s
  | .blocks l =>
    joinWith " " (l.filterMap fun b =>
      match b with
      | .textBlock s => some s
      | _ => none)

/-- ASCII `[A-Z]`. -/
def isUpperA (c : Char) : Bool := 'A' ≤ c && c ≤ 'Z'

/-- ASCII `[a-z]`. -/
def isLowerA (c : Char) : Bool := 'a' ≤ c && c ≤ 'z'

/-- Length of the maximal run of characters satisfying `p`. -/
def takeRun (p : Char → Bool) : List Char → Nat
  | [] => 0
  | c :: rest => if p c then takeRun p rest + 1 else 0

/-- Scan positions left to right, returning all matches (Python
`re.findall` non-overlapping semantics: advance past each match).
`matchAt` gets the previous character (for a leading `\b`) and the current
suffix, and returns the consumed length (`≥ 1`) with the captured value. -/
def scanPos (matchAt : Option Char → List Char → Option (Nat × String)) :
    Nat → Option Char → List Char → List String
  | 0, _, _ => []
  | _ + 1, _, [] => []
  | fuel + 1, prev, c :: rest =>
    match matchAt prev (c :: rest) with
    | some (n, b) =>
      if n = 0 then b :: scanPos matchAt fuel (some c) rest
      else b :: scanPos matchAt fuel (((c :: rest).take n).getLast?) ((c :: rest).drop n)
    | none => scanPos matchAt fuel (some c) rest

/-- First match scanning left to right (Python `re.search`, capture only). -/
def findFirst (matchAt : Option Char → List Char → Option (Nat × String)) :
    Nat → Option Char → List Char → Option String
  | 0, _, _ => none
  | _ + 1, _, [] => none
  | fuel + 1, prev, c :: rest =>
    match matchAt prev (c :: rest) with
    | some (_, s) => some s
    | none => findFirst matchAt fuel (some c) rest

/-- Matcher for `CRID[-\s]?\d+` (IGNORECASE, no `\b`), used by
`ContextAgent._extract_entities`. Greedy digits; a separator must be
followed by at least one digit. -/
def cridFindMatchAt (_prev : Option Char) (cs : List Char) : Option (Nat × String) :=
  if (cs.take 4).map lowerChar = "crid".data then
    match cs.drop 4 with
    | c :: rest2 =>
      if c = '-' || pySpace c then
        let d := takeRun Char.isDigit rest2
        if d = 0 then none else some (5 + d, ⟨cs.take (5 + d)⟩)
      else
        let d := takeRun Char.isDigit (cs.drop 4)
        if d = 0 then none else some (4 + d, ⟨cs.take (4 + d)⟩)
    | [] => none
  else none

/-- `crid.upper().replace(" ", "-")` applied to each found CRID. -/
def cridNormalize (s : String) : String :=
  ⟨s.data.map (fun c => if c = ' ' then '-' else upperChar c)⟩

/-- Boundary on the right of a match: end of text or a non-word character. -/
def afterBoundaryOk : List Char → Bool
  | [] => true
  | c :: _ => !wordChar c

/-- Matcher for the name pattern `\b([A-Z][a-z]+ [A-Z][a-z]+)\b` used by
`ContextAgent._extract_entities` on assistant messages. -/
def nameMatchAt (prev : Option Char) (cs : List Char) : Option (Nat × String) :=
  let leftOk := match prev with | none => true | some c => !wordChar c
  if !leftOk then none
  else
    match cs with
    | c1 :: rest1 =>
      if isUpperA c1 then
        let l1 := takeRun isLowerA rest1
        if l1 = 0 then none
        else
          match rest1.drop l1 with
          | ' ' :: rest2 =>
            match rest2 with
            | c2 :: rest3 =>
              if isUpperA c2 then
                let l2 := takeRun isLowerA rest3
                if l2 = 0 then none
                else if afterBoundaryOk (rest3.drop l2) then
                  some (3 + l1 + l2, ⟨cs.take (3 + l1 + l2)⟩)
                else none
              else none
            | [] => none
          | _ => none
      else none
    | [] => none

/-- `ContextAgent._extract_entities`: CRIDs from every message, capitalized
two-word names (≤ 5 per message) from assistant messages; deduplicated
preserving first occurrence, capped at 20. -/
def extractEntities (history : List Msg) : List String :=
  let entities := history.foldl (fun acc msg =>
    let text := getMessageText msg
    let crids := (scanPos cridFindMatchAt (text.data.length + 1) none text.data).map cridNormalize
    let acc1 := acc ++ crids
    if msg.role = "assistant" then
      acc1 ++ (scanPos nameMatchAt (text.data.length + 1) none text.data).take 5
    else acc1) []
  (distinctList entities).take 20

/-- `ContextAgent.VALID_STATES` (a set; only membership is used). -/
def VALID_STATES : List String := [
  "AL", "AK", "AZ", "AR", "CA", "CO", "CT", "DE", "FL", "GA",
  "HI", "ID", "IL", "IN", "IA", "KS", "KY", "LA", "ME", "MD",
  "MA", "MI", "MN", "MS", "MO", "MT", "NE", "NV", "NH", "NJ",
  "NM", "NY", "NC", "ND", "OH", "OK", "OR", "PA", "PR", "RI", "SC",
  "SD", "TN", "TX", "UT", "VT", "VA", "WA", "WV", "WI", "WY", "DC"]

/-- `ContextAgent.STATE_NAMES` in dict insertion order (the `for name, code
in self.STATE_NAMES.items()` scan takes the first substring hit in this
order). -/
def STATE_NAMES : List (String × String) := [
  ("alabama", "AL"), ("alaska", "AK"), ("arizona", "AZ"), ("arkansas", "AR"),
  ("california", "CA"), ("colorado", "CO"), ("connecticut", "CT"), ("delaware", "DE"),
  ("florida", "FL"), ("georgia", "GA"), ("hawaii", "HI"), ("idaho", "ID"),
  ("illinois", "IL"), ("indiana", "IN"), ("iowa", "IA"), ("kansas", "KS"),
  ("kentucky", "KY"), ("louisiana", "LA"), ("maine", "ME"), ("maryland", "MD"),
  ("massachusetts", "MA"), ("michigan", "MI"), ("minnesota", "MN"), ("mississippi", "MS"),
  ("missouri", "MO"), ("montana", "MT"), ("nebraska", "NE"), ("nevada", "NV"),
  ("new hampshire", "NH"), ("new jersey", "NJ"), ("new mexico", "NM"), ("new york", "NY"),
  ("north carolina", "NC"), ("north dakota", "ND"), ("ohio", "OH"), ("oklahoma", "OK"),
  ("oregon", "OR"), ("pennsylvania", "PA"), ("puerto rico", "PR"), ("rhode island", "RI"),
  ("south carolina", "SC"), ("south dakota", "SD"), ("tennessee", "TN"), ("texas", "TX"),
  ("utah", "UT"), ("vermont", "VT"), ("virginia", "VA"), ("washington", "WA"),
  ("west virginia", "WV"), ("wisconsin", "WI"), ("wyoming", "WY"),
  ("district of columbia", "DC"), ("d.c.", "DC"), ("dc", "DC")]

/-- Geographic context dict (`state` / `city` / `zip_code`). -/
structure GeoContext where
  state : Option String := none
  city : Option String := none
  zip_code : Option String := none
deriving DecidableEq

/-- Matcher for `\b([A-Z]{2})\b` (first two-letter uppercase token). -/
def stateCodeMatchAt (prev : Option Char) (cs : List Char) : Option (Nat × String) :=
  let leftOk := match prev with | none => true | some c => !wordChar c
  if !leftOk then none
  else
    match cs with
    | c1 :: c2 :: rest =>
      if isUpperA c1 && isUpperA c2 && afterBoundaryOk rest then
        some (2, ⟨[c1, c2]⟩)
      else none
    | _ => none

/-- Matcher for `\b(\d{5})(?:-\d{4})?\b` (ZIP extraction; the capture is the
five digits). -/
def zipMatchAt (prev : Option Char) (cs : List Char) : Option (Nat × String) :=
  let leftOk := match prev with | none => true | some c => !wordChar c
  if !leftOk then none
  else if (cs.take 5).length = 5 && (cs.take 5).all Char.isDigit then
    let five : String := ⟨cs.take 5⟩
    match cs.drop 5 with
    | '-' :: rest2 =>
      if (rest2.take 4).length = 4 && (rest2.take 4).all Char.isDigit
          && afterBoundaryOk (rest2.drop 4) then
        some (10, five)
      else some (5, five)
    | rest1 => if afterBoundaryOk rest1 then some (5, five) else none
  else none

/-- Continuation `\s*,?\s*STATE` of the city pattern. -/
def cityContinue (state : List Char) (cs : List Char) : Bool :=
  let cs1 := cs.drop (takeRun pySpace cs)
  let cs2 := match cs1 with | ',' :: r => r | _ => cs1
  beginsWith (cs2.drop (takeRun pySpace cs2)) state

/-- Matcher for the dynamic city pattern
`([A-Z][a-z]+(?:\s+[A-Z][a-z]+)?)\s*,?\s*STATE` (no `\b` anchors; the
capture is the capitalized word or word pair). -/
def cityMatchAt (state : List Char) (_prev : Option Char) (cs : List Char) :
    Option (Nat × String) :=
  match cs with
  | [] => none
  | c1 :: rest1 =>
    if isUpperA c1 then
      let l1 := takeRun isLowerA rest1
      if l1 = 0 then none
      else
        let afterW1 := rest1.drop l1
        let wsn := takeRun pySpace afterW1
        let withSecond : Option (Nat × String) :=
          if wsn = 0 then none
          else
            match afterW1.drop wsn with
            | c2 :: rest2 =>
              if isUpperA c2 then
                let l2 := takeRun isLowerA rest2
                if l2 = 0 then none
                else if cityContinue state (rest2.drop l2) then
                  some (2 + l1 + wsn + l2, ⟨cs.take (2 + l1 + wsn + l2)⟩)
                else none
              else none
            | [] => none
        match withSecond with
        | some r => some r
        | none =>
          if cityContinue state afterW1 then some (1 + l1, ⟨cs.take (1 + l1)⟩) else none
    else none

/-- The state-name table scan inside `_extract_geographic`: first entry of
`STATE_NAMES` (in insertion order) occurring as a substring of the lowered
text. -/
def nameScan (textLower : List Char) : Option String :=
  (STATE_NAMES.find? (fun p => containsSub textLower p.1.data)).map Prod.snd

/-- One iteration of the `for text in all_text` loop of
`ContextAgent._extract_geographic`. -/
def geoStep (ctx : GeoContext) (text : String) : GeoContext :=
  let cs := text.data
  let textLower := (pyLower text).data
  let state1 :=
    if optStrTruthy ctx.state then ctx.state
    else
      match findFirst stateCodeMatchAt (cs.length + 1) none cs with
      | some code => if VALID_STATES.contains code then some code else nameScan textLower
      | none => nameScan textLower
  let zip1 :=
    if optStrTruthy ctx.zip_code then ctx.zip_code
    else findFirst zipMatchAt (cs.length + 1) none cs
  let city1 :=
    if !(optStrTruthy ctx.city) && optStrTruthy state1 then
      match findFirst (cityMatchAt (state1.getD "").data) (cs.length + 1) none cs with
      | some c => some c
      | none => ctx.city
    else ctx.city
  { state := state1, city := city1, zip_code := zip1 }

/-- `ContextAgent._extract_geographic`: current query first, then history in
reverse order; each field keeps its first hit. -/
def extractGeographic (history : List Msg) (currentQuery : String) : GeoContext :=
  (currentQuery :: (history.reverse.map getMessageText)).foldl geoStep {}

/-- The preferences dict built by `ContextAgent._infer_preferences`. -/
structure UserPreferences where
  preferred_limit : Nat := 10
  prefers_details : Bool := false
  prefers_summary : Bool := false
deriving DecidableEq

/-- Matcher for `\b(\d+)\s+(?:results?|customers?|records?)\b` (the capture
is the digit run). -/
def limitMatchAt (prev : Option Char) (cs : List Char) : Option (Nat × String) :=
  let leftOk := match prev with | none => true | some c => !wordChar c
  if !leftOk then none
  else
    let d := takeRun Char.isDigit cs
    if d = 0 then none
    else
      let wsn := takeRun pySpace (cs.drop d)
      if wsn = 0 then none
      else
        let rest := cs.drop (d + wsn)
        let wordOptS : List Char → Bool := fun w =>
          beginsWith rest w &&
            (match rest.drop w.length with
             | 's' :: rest2 => afterBoundaryOk rest2
             | r => afterBoundaryOk r)
        if wordOptS "result".data || wordOptS "customer".data || wordOptS "record".data then
          some (d, ⟨cs.take d⟩)
        else none

/-- Decimal digit run to a natural number. -/
def digitsToNat (s : String) : Nat :=
  s.data.foldl (fun n c => n * 10 + (c.toNat - 48)) 0

/-- `ContextAgent._infer_preferences` over the user-authored messages. -/
def inferPreferences (history : List Msg) : UserPreferences :=
  history.foldl (fun prefs msg =>
    if msg.role != "user" then prefs
    else
      let text := pyLower (getMessageText msg)
      let prefs1 :=
        match findFirst limitMatchAt (text.data.length + 1) none text.data with
        | some ds => { prefs with preferred_limit := min (digitsToNat ds) 100 }
        | none => prefs
      let prefs2 :=
        if ["detail", "full", "complete", "all info"].any (fun w => strContains text w)
        then { prefs1 with prefers_details := true } else prefs1
      if ["summary", "brief", "quick", "overview"].any (fun w => strContains text w)
      then { prefs2 with prefers_summary := true } else prefs2) {}

/-- First `some` in a list. -/
def firstSome : List (Option α) → Option α
  | [] => none
  | some a :: _ => some a
  | none :: rest => firstSome rest

/-- First `{"json": ...}` item of a tool-result content list. -/
def firstJsonItem : List TRItem → Option (List Customer)
  | [] => none
  | .jsonItem rs :: _ => some rs
  | .otherItem :: rest => firstJsonItem rest

/-- Tool results carried by one message (string contents yield nothing:
iterating a Python string gives characters, which never contain the
`toolResult` key). -/
def msgPrior (m : Msg) : Option (List Customer) :=
  match m.content with
  | .str _ => none
  | .blocks bl =>
    firstSome (bl.map fun b =>
      match b with
      | .toolResultBlock items => firstJsonItem items
      | _ => none)

/-- `ContextAgent._get_prior_results`: most recent assistant message with an
embedded tool-result record list. -/
def getPriorResults (history : List Msg) : Option (List Customer) :=
  firstSome ((history.reverse.filter (fun m => m.role = "assistant")).map msgPrior)

/-- `ContextAgent.FOLLOW_UP_PATTERNS`. -/
def FOLLOW_UP_PATTERNS : List Pat := [
  pw [rlit "those"],
  pw [rlit "them"],
  pw [rlit "they"],
  pw [rlit "it"],
  pw [rlit "the", rws, rlit "same"],
  pw [rlit "same", rws, rlit "customer", ropts "s"],
  pw [rlit "more", rws, rlit "about"],
  pw [rlit "more", rws, rlit "detail", ropts "s"],
  pw [rlit "what", rws, rlit "about"],
  pw [rlit "how", rws, rlit "about"],
  pw [rlit "and", rws, rlit "also"],
  pw [rlit "can", rws, rlit "you", rws, rlit "also"],
  pw [rlit "tell", rws, rlit "me", rws, rlit "more"],
  pw [rlit "show", rws, rlit "me", rws, rlit "more"]]

/-- `ContextAgent._detect_follow_up`: always false on empty history;
otherwise a referential-phrase match or a query of at most 3 words. -/
def detectFollowUp (query : String) (history : List Msg) : Bool :=
  if history.isEmpty then false
  else
    let ql := (pyLower query).data
    if matchPatterns ql FOLLOW_UP_PATTERNS then true
    else if (pyWords query).length ≤ 3 && !history.isEmpty then true
    else false

/-- Count of truthy geographic fields (`sum(1 for v in ... if v)`). -/
def geoCount (g : GeoContext) : Nat :=
  (if optStrTruthy g.state then 1 else 0) + (if optStrTruthy g.city then 1 else 0) +
    (if optStrTruthy g.zip_code then 1 else 0)

/-- `ContextAgent._calculate_confidence`: base 0.5, history boost, geo
boost, follow-up bonus/penalty, round to 3 decimals and clamp to `[0,1]`. -/
def contextConfidence (history : List Msg) (geographic : GeoContext)
    (isFollowUp : Bool) : ℚ :=
  let c0 : ℚ := 1/2
  let c1 := if !history.isEmpty then c0 + (1/10) * (min history.length 5 : ℚ) / 5 else c0
  let c2 := c1 + (1/10) * (geoCount geographic : ℚ) / 3
  let c3 := if isFollowUp && !history.isEmpty then c2 + 1/5 else c2
  let c4 := if isFollowUp && history.isEmpty then c3 - 3/10 else c3
  clamp01 (pyRound3 c4)

/-- `QueryContext` from `agents/models.py`. -/
structure QueryContext where
  session_history : List Msg := []
  referenced_entities : List String := []
  geographic_context : GeoContext := {}
  user_preferences : UserPreferences := {}
  prior_results : Option (List Customer) := none
  is_follow_up : Bool := false
  context_confidence : ℚ := 0
deriving DecidableEq

/-- `ContextAgent.extract`. The session fetch `_get_session_history` is a
collaborator call (the session store is not under `src/`); it fails soft to
`[]` on errors, and is modelled by passing the fetched history directly.
The `intent` argument is accepted and unused, exactly as in the source. -/
def contextExtract (history : List Msg) (query : String)
    (_intent : IntentResult) : QueryContext :=
  let geo := extractGeographic history query
  let follow := detectFollowUp query history
  { session_history := history
    referenced_entities := extractEntities history
    geographic_context := geo
    user_preferences := inferPreferences history
    prior_results := getPriorResults history
    is_follow_up := follow
    context_confidence := contextConfidence history geo follow }

/-! ### agents/nova_agent.py -/

/-- `SearchStrategy` from `agents/models.py`. -/
inductive SearchStrategy where
  | EXACT | FUZZY | SEMANTIC | HYBRID | KEYWORD
deriving DecidableEq

/-- `SearchResult` from `agents/models.py` (`search_metadata` is an opaque
info dict). -/
structure SearchResult where
  strategy_used : SearchStrategy
  results : List Customer := []
  total_matches : Nat := 0
  search_metadata : List (String × String) := []
  alternatives_tried : List String := []
  search_confidence : ℚ := 0
deriving DecidableEq

/-- A knowledge chunk dict (`text` / `source`, read with `.get(k, "")`). -/
structure Chunk where
  text : String := ""
  source : String := ""
deriving DecidableEq

/-- `KnowledgeContext` from `agents/models.py`. -/
structure KnowledgeContext where
  relevant_chunks : List Chunk := []
  total_chunks_found : Nat := 0
  categories_searched : List String := []
  tags_matched : List String := []
  rag_confidence : ℚ := 0
deriving DecidableEq

/-- Opaque tool-execution result payload. -/
abbrev ToolResultData := List (String × String)

/-- `NovaResponse` from `agents/models.py`. -/
structure NovaResponse where
  response_text : String
  tools_used : List String := []
  tool_results : List ToolResultData := []
  model_used : String := "nova-micro"
  tokens_used : Nat := 0
  ai_confidence : ℚ := 0
deriving DecidableEq

/-- `NovaAgent._estimate_confidence`: base 0.7, +0.15 with tool use, −0.2 on
hedging phrases, rounded and clamped to `[0.1, 1.0]`. -/
def estimateConfidence (response : String) (toolsUsed : List String) : ℚ :=
  let c0 : ℚ := 7/10
  let c1 := if !toolsUsed.isEmpty then c0 + 3/20 else c0
  let uncertain := ["i\x27m not sure", "i don\x27t know", "i cannot", "unable to"]
  let c2 := if uncertain.any (fun p => strContains (pyLower response) p) then c1 - 1/5 else c1
  max (1/10) (min 1 (pyRound3 c2))

/-- Models `.get(key, "N/A")` for record fields; loaded records carry either
a non-empty value or no key at all, both collapsed to `""` in `Customer`. -/
def getNA (s : String) : String := if s = "" then "N/A" else s

/-- `NovaAgent._fallback_response`: templated answer from the search
results, or the static unavailable message. -/
def fallbackResponse (_query : String) (searchResult : SearchResult)
    (_knowledge : KnowledgeContext) : NovaResponse :=
  if !searchResult.results.isEmpty then
    let total := searchResult.total_matches
    let lines := ("Found " ++ toString total ++ " customer(s):") ::
      (searchResult.results.take 5).map (fun c =>
        "  - " ++ c.crid.getD "N/A" ++ ": " ++ getNA c.name ++ " (" ++ getNA c.city ++
          ", " ++ getNA c.state ++ ")")
    let lines2 := if 5 < total then lines ++ ["  ... and " ++ toString (total - 5) ++ " more"]
      else lines
    { response_text := joinWith "\n" lines2, tools_used := [], tool_results := [],
      model_used := "fallback", tokens_used := 0, ai_confidence := 1/2 }
  else
    { response_text := "AI features are not available. Please use direct search or autocomplete endpoints.",
      tools_used := [], tool_results := [], model_used := "fallback", tokens_used := 0,
      ai_confidence := 1/10 }

/-- `NovaAgent._build_context`: RAG block from the first 5 records and
first 3 knowledge chunks. -/
def buildContext (searchResult : SearchResult) (knowledge : KnowledgeContext) : String :=
  let p1 : List String :=
    if !searchResult.results.isEmpty then
      let rows := (searchResult.results.take 5).enum.map (fun p =>
        "  " ++ toString (p.1 + 1) ++ ". " ++ p.2.crid.getD "N/A" ++ ": " ++ getNA p.2.name ++
          " - " ++ getNA p.2.city ++ ", " ++ getNA p.2.state ++ " (" ++
          toString p.2.move_count ++ " moves)")
      let base := "CUSTOMER DATA:" :: rows
      if 5 < searchResult.total_matches then
        base ++ ["  ... and " ++ toString (searchResult.total_matches - 5) ++ " more"]
      else base
    else []
  let p2 : List String :=
    if !knowledge.relevant_chunks.isEmpty then
      "\nRELEVANT DOCUMENTATION:" :: (knowledge.relevant_chunks.take 3).map (fun ch =>
        "  - " ++ (⟨ch.text.data.take 200⟩ : String) ++ "... (from " ++ ch.source ++ ")")
    else []
  joinWith "\n" (p1 ++ p2)

/-- `NovaAgent._build_messages`: last 6 history turns filtered to text-only
blocks and user/assistant roles, then the current query. -/
def buildMessages (query : String) (context : QueryContext) : List Msg :=
  let hist :=
    if !context.session_history.isEmpty then
      (context.session_history.drop (context.session_history.length - 6)).filterMap (fun m =>
        let tbs : List MsgBlock :=
          match m.content with
          | .blocks l => l.filter (fun b => match b with | .textBlock _ => true | _ => false)
          | .str s => [.textBlock s]
        if !tbs.isEmpty && (m.role = "user" || m.role = "assistant") then
          some { role := m.role, content := .blocks tbs }
        else none)
    else []
  hist ++ [{ role := "user", content := .blocks [.textBlock query] }]

/-- Modelled from the spec: outcome of the Bedrock round-trip performed by
`NovaAgent._converse`. The AI text-generation capability is an opaque
external collaborator (spec §1, §6); its reply — final text, the tools it
requested (executed through the registry), their results — or its failure
mode (a boto `ClientError` carrying a message, or any other exception) is
abstracted into this outcome value. -/
inductive ConverseOutcome where
  | ok (text : String) (tools_used : List String) (tool_results : List ToolResultData)
  | clientError (message : String)
  | otherError
deriving DecidableEq

/-- `NovaAgent.generate` as a transition on the agent's `_available` flag:
returns the `NovaResponse` and the new flag value. Unavailable agents fall
back immediately; a `ClientError` whose message contains `"Access"` or
(lowered) `"credentials"` clears the flag; other failures fall back without
touching it. -/
def novaGenerate (model : String) (available : Bool) (outcome : ConverseOutcome)
    (query : String) (searchResult : SearchResult) (knowledge : KnowledgeContext) :
    NovaResponse × Bool :=
  if !available then (fallbackResponse query searchResult knowledge, available)
  else
    match outcome with
    | .ok text toolsUsed toolResults =>
      ({ response_text := text, tools_used := toolsUsed, tool_results := toolResults,
         model_used := model, tokens_used := 0,
         ai_confidence := estimateConfidence text toolsUsed }, available)
    | .clientError msg =>
      (fallbackResponse query searchResult knowledge,
        if strContains msg "Access" || strContains (pyLower msg) "credentials" then false
        else available)
    | .otherError => (fallbackResponse query searchResult knowledge, available)

/-- One `generate` call per list entry (outcome, query, search, knowledge),
threading the availability flag; returns the responses and the final flag. -/
def novaGenerateSeq (model : String) (available : Bool) :
    List (ConverseOutcome × String × SearchResult × KnowledgeContext) →
      List NovaResponse × Bool
  | [] => ([], available)
  | (o, q, sr, kc) :: rest =>
    let step := novaGenerate model available o q sr kc
    let tail := novaGenerateSeq model step.2 rest
    (step.1 :: tail.1, tail.2)

/-! ### router.py -/

/-- Modelled from the spec: `RouteType` from `icda/vector_index.py` (not
under `src/`); the route taken is cache hit, direct database tool call, or
the AI pipeline (spec §2 Router, Glossary "Route"). -/
inductive RouteType where
  | CACHE_HIT | DATABASE | NOVA
deriving DecidableEq

/-- Modelled from the spec: a server-side `Session` (spec §6): ordered
`(role, text)` turns keyed by an opaque identifier. -/
structure Session where
  session_id : String
  messages : List (String × String) := []
deriving DecidableEq

/-- Modelled from the spec: `Session.add_message(role, text)` appends one
turn. -/
def Session.add_message (s : Session) (role text : String) : Session :=
  { s with messages := s.messages ++ [(role, text)] }

/-- Modelled from the spec: `Session.get_history(max_messages)` returns the
most recent turns, in order. -/
def Session.get_history (s : Session) (maxMessages : Nat) : List (String × String) :=
  s.messages.drop (s.messages.length - maxMessages)

/-- Modelled from the spec: `SessionManager.get` returns the stored session
or a fresh empty one (only `save` writes to the store). -/
def sessionGet (store : List (String × Session)) (sid : Option String)
    (freshId : String) : Session :=
  match sid with
  | some s => (dictGet s store).getD { session_id := s }
  | none => { session_id := freshId }

/-- Modelled from the spec: guardrail flags, the optional second argument of
the guardrail checker (spec §6). -/
structure GuardrailFlags where
  flags : List (String × Bool) := []
deriving DecidableEq

/-- Payload shapes produced by the deterministic database tools
(`lookup_crid` / `search_customers` / `get_stats`). -/
inductive DbPayload where
  | lookupData (c : Customer)
  | searchData (total : Nat) (data : List Customer)
  | statsData (counts : List (String × Nat)) (total : Nat)
  | otherData (json : String)
deriving DecidableEq

/-- Result dict of `CustomerDB.execute`. -/
structure DbResult where
  success : Bool
  payload : DbPayload
deriving DecidableEq

/-- Result dict of `NovaClient.query` as consumed by the router (`success`,
`response`, optional `error` / `tool` / `quality_score` / `route`). -/
structure NovaQueryResult where
  success : Bool
  response : String := ""
  error : Option String := none
  tool : Option String := none
  quality_score : Option ℚ := none
  route : Option String := none
deriving DecidableEq

/-- Result dict of `VectorIndex.search_customers_semantic` as consumed by
the router. -/
structure SemSearchResult where
  success : Bool
  count : Nat := 0
  data : List Customer := []
deriving DecidableEq

/-- `Router._format_db_result`. The `json.dumps` default for unknown tools
(and the impossible payload-shape mismatches for the three known tools) is
the supplied `jd` function, modelling the stdlib `json` collaborator. -/
def formatDbResult (jd : DbResult → String) (result : DbResult) (tool : String) : String :=
  if tool = "lookup_crid" then
    match result.payload with
    | .lookupData c =>
      "Customer " ++ c.name ++ " (" ++ c.crid.getD "" ++ "): " ++ c.city ++ ", " ++ c.state ++
        ". Moved " ++ toString c.move_count ++ " times."
    | _ => jd result
  else if tool = "search_customers" then
    match result.payload with
    | .searchData total data =>
      joinWith "\n" (("Found " ++ toString total ++ " customers:") ::
        data.map (fun c =>
          "- " ++ c.name ++ " (" ++ c.crid.getD "" ++ "): " ++ c.city ++ ", " ++ c.state ++
            " - " ++ toString c.move_count ++ " moves"))
    | _ => jd result
  else if tool = "get_stats" then
    match result.payload with
    | .statsData counts total =>
      joinWith "\n" (("Customer count by state (Total: " ++ toString total ++ "):") ::
        (sortByCountDesc counts).map (fun p => "- " ++ p.1 ++ ": " ++ toString p.2))
    | _ => jd result
  else jd result

/-- The collaborators of `Router.route`, as deterministic functions.
`check` is the guardrail checker (`some` = blocked message), `makeKey` the
cache-key hash, `findRoute` the semantic router, `dbExecute` the database
tool runner, `novaQuery` the AI pipeline entry
(`query, history, context, session_id`), `semanticSearch` the fallback RAG
lookup used when no orchestrator is attached, `newSessionId` the identifier
a freshly created session receives. All are spec §6 capability contracts;
none of their implementations live under `src/`. -/
structure RouterEnv where
  check : String → Option GuardrailFlags → Option String
  makeKey : String → String
  findRoute : String → RouteType × Option String
  dbExecute : String → String → DbResult
  hasOrchestrator : Bool
  semanticSearch : String → Nat → SemSearchResult
  novaQuery : String → Option (List (String × String)) → Option String → String → NovaQueryResult
  jsonDumpsDb : DbResult → String
  newSessionId : String

/-- The response dict built by `Router._response` (`latency_ms`, a
wall-clock measurement, is not modelled). -/
structure RouteResponse where
  success : Bool := true
  query : String
  response : String
  route : RouteType
  cached : Bool := false
  blocked : Bool := false
  tool : Option String := none
  session_id : String
  quality_score : Option ℚ := none
  nova_route : Option String := none
deriving DecidableEq

/-- Observable outcome of one `Router.route` call: the response plus the
final cache and session stores, whether the cache was consulted, whether it
was written, and the session passed to `sessions.save` (if any). -/
structure RouteOutcome where
  response : RouteResponse
  cache : List (String × String)
  sessions : List (String × Session)
  cacheConsulted : Bool
  cacheWrote : Bool
  savedSession : Option Session
deriving DecidableEq

/-- `Router.route`. The cache stores the response text (the
`json.dumps({"response": ...})` envelope round-trips and is modelled away).
Guardrail block returns a cache-hit-shaped blocked response and touches
nothing; the cache is read only for stateless sessions; database and
pipeline answers append both turns, save the session, and cache only while
the saved session holds at most the two fresh turns. -/
def route (env : RouterEnv) (cache : List (String × String))
    (sessions : List (String × Session)) (query : String) (bypassCache : Bool)
    (guardrails : Option GuardrailFlags) (sessionId : Option String) : RouteOutcome :=
  let q := pyStrip query
  let session := sessionGet sessions sessionId env.newSessionId
  match env.check q guardrails with
  | some blockedMsg =>
    let r : RouteResponse := { query := q, response := blockedMsg, route := .CACHE_HIT,
                               blocked := true, session_id := session.session_id }
    { response := r, cache := cache, sessions := sessions, cacheConsulted := false,
      cacheWrote := false, savedSession := none }
  | none =>
    let key := env.makeKey q
    let consult := !bypassCache && session.messages.isEmpty
    match (if consult then dictGet key cache else none) with
    | some cachedResponse =>
      let r : RouteResponse := { query := q, response := cachedResponse, route := .CACHE_HIT,
                                 cached := true, session_id := session.session_id }
      { response := r, cache := cache, sessions := sessions, cacheConsulted := consult,
        cacheWrote := false, savedSession := none }
    | none =>
      let rt := env.findRoute q
      let dbBranch : Option RouteOutcome :=
        if rt.1 = .DATABASE then
          let tool := rt.2.getD "search_customers"
          let result := env.dbExecute tool q
          if result.success then
            let resp := formatDbResult env.jsonDumpsDb result tool
            let session1 := (session.add_message "user" q).add_message "assistant" resp
            let wrote := decide (session1.messages.length ≤ 2)
            let r : RouteResponse := { query := q, response := resp, route := .DATABASE,
                                       tool := some tool, session_id := session1.session_id }
            some { response := r,
                   cache := if wrote then dictInsert key resp cache else cache,
                   sessions := dictInsert session1.session_id session1 sessions,
                   cacheConsulted := consult, cacheWrote := wrote,
                   savedSession := some session1 }
          else none
        else none
      match dbBranch with
      | some outDb => outDb
      | none =>
        let history := if !session.messages.isEmpty then some (session.get_history 20) else none
        let context : Option String :=
          if !env.hasOrchestrator then
            let rag := env.semanticSearch q 5
            if rag.success && 0 < rag.count then
              some (joinWith "\n" ("Found relevant customer records:" ::
                rag.data.map (fun c => "- " ++ c.name ++ " (CRID: " ++ c.crid.getD "" ++ "): " ++
                  c.city ++ ", " ++ c.state ++ ", " ++ toString c.move_count ++
                  " moves. Status: " ++ c.status)))
            else none
          else none
        let result := env.novaQuery q history context session.session_id
        if result.success then
          let resp := result.response
          let session1 := (session.add_message "user" q).add_message "assistant" resp
          let wrote := decide (session1.messages.length ≤ 2)
          let r : RouteResponse := { query := q, response := resp, route := .NOVA,
                                     tool := result.tool, session_id := session1.session_id,
                                     quality_score := result.quality_score,
                                     nova_route := result.route }
          { response := r,
            cache := if wrote then dictInsert key resp cache else cache,
            sessions := dictInsert session1.session_id session1 sessions,
            cacheConsulted := consult, cacheWrote := wrote, savedSession := some session1 }
        else
          let r : RouteResponse := { success := false, query := q,
                                     response := result.error.getD "Unknown error",
                                     route := .NOVA, session_id := session.session_id }
          { response := r, cache := cache, sessions := sessions, cacheConsulted := consult,
            cacheWrote := false, savedSession := none }

/-! ### Concrete fixtures used by witness theorems -/

/-- Fixture: one loaded Nevada customer record. -/
def cNV : Customer :=
  { crid := some "CRID-000001", name := "Ann Lee", city := "Reno", state := "NV",
    address := "1 Main St", customer_type := "RESIDENTIAL", status := "active",
    move_count := 2, created_date := some "2020-01-01" }

/-- Fixture: a second loaded Nevada customer record. -/
def cNV2 : Customer :=
  { crid := some "CRID-000002", name := "Bo Cruz", city := "Reno", state := "NV",
    address := "2 Main St", customer_type := "RESIDENTIAL", status := "active",
    move_count := 4, created_date := some "2021-01-01" }

/-- Fixture: a single prior user turn. -/
def msgNV : Msg := { role := "user", content := .str "customers in NV with 3 moves" }

/-- Fixture: an intent value for calls whose intent argument is unused. -/
def intentFix : IntentResult := { primary_intent := .SEARCH }

/-- Fixture: router collaborators whose guardrail blocks every query and
whose other capabilities fail. -/
def envBlocked : RouterEnv :=
  { check := fun _ _ => some "Blocked: sensitive data request"
    makeKey := fun s => s
    findRoute := fun _ => (.NOVA, none)
    dbExecute := fun _ _ => { success := false, payload := .otherData "" }
    hasOrchestrator := true
    semanticSearch := fun _ _ => { success := false }
    novaQuery := fun _ _ _ _ => { success := false }
    jsonDumpsDb := fun _ => ""
    newSessionId := "s-new" }

/-- Fixture: router collaborators that pass guardrails and answer through
the AI pipeline with the text `"ok"`. -/
def envNova : RouterEnv :=
  { envBlocked with
    check := fun _ _ => none
    novaQuery := fun _ _ _ _ => { success := true, response := "ok" } }

/-! ## Theorems

Shared helper lemmas first, then one theorem (plus witness or
counterexample) per claim. -/

/-- `clamp01` stays above 0. -/
theorem clamp01_nonneg (x : ℚ) : 0 ≤ clamp01 x := le_max_left 0 _

/-- `clamp01` stays below 1. -/
theorem clamp01_le_one (x : ℚ) : clamp01 x ≤ 1 :=
  max_le (by norm_num) (min_le_left 1 x)

/-- An upper bound below which the input lies also bounds the clamp. -/
theorem clamp01_le_of (x b : ℚ) (hb : 0 ≤ b) (h : x ≤ b) : clamp01 x ≤ b :=
  max_le hb (le_trans (min_le_right 1 x) h)

/-- A lower bound not exceeding 1 that the input dominates also bounds the
clamp from below. -/
theorem le_clamp01_of (x b : ℚ) (hb : b ≤ 1) (h : b ≤ x) : b ≤ clamp01 x :=
  le_trans (le_min hb h) (le_max_right 0 _)

/-- `pyRound3 x` is `n / 1000` for an integer `n` within one half of
`1000 x`. -/
theorem pyRound3_near (x : ℚ) :
    ∃ n : ℤ, pyRound3 x = (n : ℚ) / 1000 ∧
      x * 1000 - 1/2 ≤ (n : ℚ) ∧ (n : ℚ) ≤ x * 1000 + 1/2 := by
  have h1 : ((⌊x * 1000⌋ : ℤ) : ℚ) ≤ x * 1000 := Int.floor_le _
  have h2 : x * 1000 < ((⌊x * 1000⌋ : ℤ) : ℚ) + 1 := Int.lt_floor_add_one _
  simp only [pyRound3]
  split_ifs with hlt hgt hev
  · exact ⟨⌊x * 1000⌋, rfl, by linarith, by linarith⟩
  · exact ⟨⌊x * 1000⌋ + 1, by push_cast; ring_nf, by push_cast; linarith, by push_cast; linarith⟩
  · have hr : x * 1000 - ((⌊x * 1000⌋ : ℤ) : ℚ) = 1/2 := le_antisymm (not_lt.mp hgt) (not_lt.mp hlt)
    exact ⟨⌊x * 1000⌋, rfl, by linarith, by linarith⟩
  · have hr : x * 1000 - ((⌊x * 1000⌋ : ℤ) : ℚ) = 1/2 := le_antisymm (not_lt.mp hgt) (not_lt.mp hlt)
    exact ⟨⌊x * 1000⌋ + 1, by push_cast; ring_nf, by push_cast; linarith, by push_cast; linarith⟩

/-- Rounding moves the value by at most `1/2000` upward. -/
theorem pyRound3_le_add (x : ℚ) : pyRound3 x ≤ x + 1/2000 := by
  obtain ⟨n, hn, _, hhi⟩ := pyRound3_near x
  rw [hn, div_le_iff₀ (by norm_num : (0:ℚ) < 1000)]
  linarith

/-- Rounding moves the value by at most `1/2000` downward. -/
theorem pyRound3_sub_le (x : ℚ) : x - 1/2000 ≤ pyRound3 x := by
  obtain ⟨n, hn, hlo, _⟩ := pyRound3_near x
  rw [hn, le_div_iff₀ (by norm_num : (0:ℚ) < 1000)]
  linarith

/-- Rounding keeps non-negative values non-negative. -/
theorem pyRound3_nonneg (x : ℚ) (h : 0 ≤ x) : 0 ≤ pyRound3 x := by
  obtain ⟨n, hn, hlo, _⟩ := pyRound3_near x
  have hn0 : (0 : ℤ) ≤ n := by
    by_contra hneg
    push_neg at hneg
    have : (n : ℚ) ≤ -1 := by exact_mod_cast Int.le_sub_one_of_lt hneg
    nlinarith
  rw [hn]
  positivity

/-- Rounding keeps values at most 1 at most 1. -/
theorem pyRound3_le_one (x : ℚ) (h : x ≤ 1) : pyRound3 x ≤ 1 := by
  obtain ⟨n, hn, _, hhi⟩ := pyRound3_near x
  have hle : (n : ℚ) ≤ 1000 + 1/2 := by linarith
  have hn1000 : n ≤ 1000 := by
    by_contra hgt
    push_neg at hgt
    have : (1001 : ℚ) ≤ (n : ℚ) := by exact_mod_cast hgt
    linarith
  rw [hn, div_le_one (by norm_num : (0:ℚ) < 1000)]
  exact_mod_cast hn1000

/-- C4: for every search on a loaded data set with a state filter whose
uppercased value is not a key of the state index, `DataSource.search`
returns the structured `state_not_available` failure carrying the requested
state, the list of actually available states and their per-state counts —
never an empty successful result. -/
theorem search_state_not_available (customers : List Customer) (f : SearchFilters)
    (st : String) (hst : f.state = some st) (hne : st ≠ "")
    (hmiss : dictGet (pyUpper st) (byState customers) = none) :
    search customers f = SearchOutcome.stateNotAvailable (pyUpper st)
      ((dictGet (pyUpper st) STATE_CODE_TO_NAME).getD st)
      (availableStates customers) (stateCounts customers)
      (((dictGet (pyUpper st) STATE_CODE_TO_NAME).getD st) ++
        " is not in our database. We have data for " ++
        toString (availableStates customers).length ++ " states.") := by
  have ht : optStrTruthy f.state = true := by
    rw [hst]; simpa [optStrTruthy] using hne
  have hgetD : f.state.getD "" = st := by rw [hst]; rfl
  have hsb : searchBase customers f = none := by
    simp only [searchBase, ht, if_true, hgetD, hmiss]
  simp only [search, hsb, hgetD]

/-- Witness for the C4 theorem: a one-record Nevada data set rejects a `CA`
filter with the structured error. -/
theorem search_state_not_available_witness :
    (({ state := some "CA" } : SearchFilters).state = some "CA" ∧ "CA" ≠ "" ∧
      dictGet (pyUpper "CA") (byState [cNV]) = none) ∧
    search [cNV] { state := some "CA" } = SearchOutcome.stateNotAvailable (pyUpper "CA")
      ((dictGet (pyUpper "CA") STATE_CODE_TO_NAME).getD "CA")
      (availableStates [cNV]) (stateCounts [cNV])
      (((dictGet (pyUpper "CA") STATE_CODE_TO_NAME).getD "CA") ++
        " is not in our database. We have data for " ++
        toString (availableStates [cNV]).length ++ " states.") :=
  ⟨⟨rfl, by decide, by decide⟩,
    search_state_not_available [cNV] { state := some "CA" } "CA" rfl (by decide) (by decide)⟩

/-- C9: `DataSource.search` does not enforce the global 100 cap: a falsy
limit (`None` / `0`) returns every matching record in data order, and any
positive limit — also above 100 — is used verbatim as the slice bound. -/
theorem search_limit_passthrough (customers : List Customer) (f : SearchFilters)
    (base : List Customer) (h : searchBase customers f = some base) :
    ((f.limit = none ∨ f.limit = some 0) →
      search customers f =
        SearchOutcome.ok (applyFilters f base).length (applyFilters f base)) ∧
    (∀ n : Int, 0 < n → f.limit = some n →
      search customers f =
        SearchOutcome.ok (applyFilters f base).length ((applyFilters f base).take n.toNat)) := by
  constructor
  · rintro (h0 | h0) <;> simp [search, h, h0, optIntTruthy]
  · intro n hn hl
    have ht : optIntTruthy (some n) = true := by
      simp only [optIntTruthy, Bool.not_eq_true']
      simpa using hn.ne'
    simp only [search, h, hl, ht, if_true, Option.getD_some, pySliceTake, hn.le, if_pos]

/-- Witness for the C9 theorem: a limit of 150 (above the global cap of
100) is honored verbatim on a two-record data set. -/
theorem search_limit_passthrough_witness :
    (searchBase [cNV, cNV2] { limit := some 150 } = some [cNV, cNV2] ∧
      (0 : Int) < 150 ∧ ({ limit := some 150 } : SearchFilters).limit = some 150) ∧
    search [cNV, cNV2] { limit := some 150 } =
      SearchOutcome.ok (applyFilters { limit := some 150 } [cNV, cNV2]).length
        ((applyFilters { limit := some 150 } [cNV, cNV2]).take (150 : Int).toNat) :=
  ⟨⟨by decide, by decide, rfl⟩,
    (search_limit_passthrough [cNV, cNV2] { limit := some 150 } [cNV, cNV2]
      (by decide)).2 150 (by decide) rfl⟩

/-- `firstHit` succeeds exactly when some candidate key is in the index. -/
theorem firstHit_isSome_iff (fmts : List String) (idx : List (String × Customer)) :
    (firstHit fmts idx).isSome = true ↔
      ∃ fmt ∈ fmts, (dictGet fmt idx).isSome = true := by
  induction fmts with
  | nil => simp [firstHit]
  | cons k rest ih =>
    cases hk : dictGet k idx with
    | none => simp [firstHit, hk, ih]
    | some c => simp [firstHit, hk]

/-- C10: `DataSource.lookup` succeeds iff the uppercased input starts with
`CRID-` and one of the zero-padded width variants (6, 5, 3, literal) of its
suffix is a key of the CRID index; in particular a bare number and a
space-separated form fail even when the record exists. -/
theorem lookup_crid_variants_iff (customers : List Customer) (crid : String) :
    ((∃ c, lookup customers crid = LookupOutcome.found c) ↔
      (beginsWith (pyUpper crid).data "CRID-".data = true ∧
        ∃ fmt ∈ cridVariants (pyUpper crid), (dictGet fmt (byCrid customers)).isSome = true)) ∧
    lookup customers "42" = LookupOutcome.notFound "CRID 42 not found" ∧
    lookup customers "CRID 42" = LookupOutcome.notFound "CRID CRID 42 not found" := by
  refine ⟨⟨?_, ?_⟩, ?_, ?_⟩
  · rintro ⟨c, hc⟩
    by_cases hb : beginsWith (pyUpper crid).data "CRID-".data = true
    · refine ⟨hb, ?_⟩
      rw [(firstHit_isSome_iff _ _).symm]
      simp only [lookup, hb, if_true] at hc
      cases hfh : firstHit (cridVariants (pyUpper crid)) (byCrid customers) with
      | none => rw [hfh] at hc; simp at hc
      | some c' => rfl
    · simp only [lookup, hb, if_false] at hc
      cases hc
  · rintro ⟨hb, hex⟩
    obtain ⟨c, hc⟩ := Option.isSome_iff_exists.mp ((firstHit_isSome_iff _ _).mpr hex)
    exact ⟨c, by simp only [lookup, hb, if_true, hc]⟩
  · have hb : beginsWith (pyUpper "42").data "CRID-".data = false := by decide
    simp only [lookup, hb, Bool.false_eq_true, if_false]
    rfl
  · have hb : beginsWith (pyUpper "CRID 42").data "CRID-".data = false := by decide
    simp only [lookup, hb, Bool.false_eq_true, if_false]
    rfl

/-- Dropping the leading word-boundary anchor of a pattern preserves search
success. -/
theorem Pat.search_drop_left {bL bR : Bool} {r : RE} {cs : List Char}
    (h : Pat.search ⟨bL, bR, r⟩ cs = true) : Pat.search ⟨false, bR, r⟩ cs = true := by
  simp only [Pat.search, List.any_eq_true] at h ⊢
  obtain ⟨i, hi, hcond⟩ := h
  refine ⟨i, hi, ?_⟩
  simp only [Bool.and_eq_true] at hcond ⊢
  exact ⟨by simp, hcond.2⟩

/-- With the CRID token present, `_detect_intent` answers LOOKUP at base
confidence 0.95 with the singleton `lookup` signal. -/
theorem detectIntent_crid (q : List Char) (h : cridTokenPat.search q = true) :
    detectIntent q = (QueryIntent.LOOKUP, 19/20, ["lookup"]) := by
  have hmp : matchPatterns q LOOKUP_PATTERNS = true := by
    simp only [matchPatterns, LOOKUP_PATTERNS, List.any_cons, h, Bool.true_or]
  have hs : cridStrict.search q = true := Pat.search_drop_left h
  simp only [detectIntent, hmp, hs, if_true]

/-- `_calculate_confidence` at base 0.95 with the singleton signal: 0.855
below 3 words, 0.808 above 20 words, 0.95 otherwise. -/
theorem calculateConfidence_crid (q : List Char) :
    calculateConfidence q (19/20) ["lookup"] =
      if (splitWsAux q []).length < 3 then 171/200
      else if 20 < (splitWsAux q []).length then 101/125
      else 19/20 := by
  simp only [calculateConfidence, List.length_cons, List.length_nil]
  norm_num
  split_ifs with h1 h2 h3 <;>
    first
      | omega
      | (unfold pyRound3; norm_num)

/-- C2 (amended): every query containing a well-formed record-ID token is
classified LOOKUP with final confidence at least 0.8; the confidence is
0.95 exactly on queries of 3 to 20 words (below 3 words the short-query
scaling gives 0.855). -/
theorem classify_crid_lookup (query : String)
    (h : cridTokenPat.search (pyStrip (pyLower query)).data = true) :
    (classify query).primary_intent = QueryIntent.LOOKUP ∧
    8/10 ≤ (classify query).confidence ∧
    (3 ≤ (pyWords (pyStrip (pyLower query))).length →
      (pyWords (pyStrip (pyLower query))).length ≤ 20 →
      (classify query).confidence = 19/20) ∧
    ((pyWords (pyStrip (pyLower query))).length < 3 →
      (classify query).confidence = 171/200) := by
  have hdet := detectIntent_crid _ h
  have hpi : (classify query).primary_intent = QueryIntent.LOOKUP := by
    simp only [classify, hdet]
  have hcf : (classify query).confidence =
      calculateConfidence (pyStrip (pyLower query)).data (19/20) ["lookup"] := by
    simp only [classify, hdet]
  have hwc : (pyWords (pyStrip (pyLower query))).length =
      (splitWsAux (pyStrip (pyLower query)).data []).length := by
    simp [pyWords]
  rw [hcf, calculateConfidence_crid]
  refine ⟨hpi, ?_, ?_, ?_⟩
  · split_ifs <;> norm_num
  · intro h3 h20
    rw [hwc] at h3 h20
    rw [if_neg (by omega), if_neg (by omega)]
  · intro h3
    rw [hwc] at h3
    rw [if_pos h3]

/-- C2 counterexample: `"crid-42"` matches the strict record-ID pattern yet
classifies at confidence 0.855, not 0.95. -/
theorem classify_crid_short_query_cex :
    cridStrict.search (pyStrip (pyLower "crid-42")).data = true ∧
    (classify "crid-42").confidence = 171/200 ∧
    ¬((classify "crid-42").confidence = 19/20) := by
  have h : cridTokenPat.search (pyStrip (pyLower "crid-42")).data = true := by decide
  have hdet := detectIntent_crid _ h
  have hcf : (classify "crid-42").confidence =
      calculateConfidence (pyStrip (pyLower "crid-42")).data (19/20) ["lookup"] := by
    simp only [classify, hdet]
  have hwc : (splitWsAux (pyStrip (pyLower "crid-42")).data []).length < 3 := by decide
  have hval : (classify "crid-42").confidence = 171/200 := by
    rw [hcf, calculateConfidence_crid, if_pos hwc]
  exact ⟨Pat.search_drop_left h, hval, by rw [hval]; norm_num⟩

/-- Witness for the C2 theorem on the 3-word query `"show me crid-42"`. -/
theorem classify_crid_lookup_witness :
    cridTokenPat.search (pyStrip (pyLower "show me crid-42")).data = true ∧
    ((classify "show me crid-42").primary_intent = QueryIntent.LOOKUP ∧
     8/10 ≤ (classify "show me crid-42").confidence ∧
     (3 ≤ (pyWords (pyStrip (pyLower "show me crid-42"))).length →
       (pyWords (pyStrip (pyLower "show me crid-42"))).length ≤ 20 →
       (classify "show me crid-42").confidence = 19/20) ∧
     ((pyWords (pyStrip (pyLower "show me crid-42"))).length < 3 →
       (classify "show me crid-42").confidence = 171/200)) :=
  ⟨by decide, classify_crid_lookup "show me crid-42" (by decide)⟩

/-- Every base confidence produced by `_detect_intent` lies in `[0, 1]`. -/
theorem detectIntent_conf_bounds (q : List Char) :
    0 ≤ (detectIntent q).2.1 ∧ (detectIntent q).2.1 ≤ 1 := by
  unfold detectIntent
  split_ifs <;> norm_num

/-- `_calculate_confidence` maps a base confidence in `[0, 1]` back into
`[0, 1]`. -/
theorem calculateConfidence_bounds (q : List Char) (ic : ℚ) (ps : List String)
    (h0 : 0 ≤ ic) (h1 : ic ≤ 1) :
    0 ≤ calculateConfidence q ic ps ∧ calculateConfidence q ic ps ≤ 1 := by
  have hm0 : (0:ℚ) ≤ min (ic + 1/10) 1 := le_min (by linarith) (by norm_num)
  have hm1 : min (ic + 1/10) 1 ≤ (1:ℚ) := min_le_right _ _
  simp only [calculateConfidence]
  constructor
  · refine pyRound3_nonneg _ ?_
    split_ifs <;> nlinarith
  · refine pyRound3_le_one _ ?_
    split_ifs <;> nlinarith

/-- C7: every confidence the agents produce lies in `[0, 1]` — the
classification confidence of `IntentAgent.classify`, the
`context_confidence` of `ContextAgent.extract`, and the `ai_confidence`
estimate of `NovaAgent._estimate_confidence`. -/
theorem confidences_in_unit_interval :
    (∀ query : String,
      0 ≤ (classify query).confidence ∧ (classify query).confidence ≤ 1) ∧
    (∀ (history : List Msg) (query : String) (intent : IntentResult),
      0 ≤ (contextExtract history query intent).context_confidence ∧
        (contextExtract history query intent).context_confidence ≤ 1) ∧
    (∀ (response : String) (toolsUsed : List String),
      0 ≤ estimateConfidence response toolsUsed ∧
        estimateConfidence response toolsUsed ≤ 1) := by
  refine ⟨?_, ?_, ?_⟩
  · intro query
    have hb := detectIntent_conf_bounds (pyStrip (pyLower query)).data
    have hcf : (classify query).confidence =
        calculateConfidence (pyStrip (pyLower query)).data
          (detectIntent (pyStrip (pyLower query)).data).2.1
          (detectIntent (pyStrip (pyLower query)).data).2.2 := rfl
    rw [hcf]
    exact calculateConfidence_bounds _ _ _ hb.1 hb.2
  · intro history query intent
    have hcc : (contextExtract history query intent).context_confidence =
        contextConfidence history (extractGeographic history query)
          (detectFollowUp query history) := rfl
    rw [hcc]
    unfold contextConfidence
    exact ⟨clamp01_nonneg _, clamp01_le_one _⟩
  · intro response toolsUsed
    unfold estimateConfidence
    constructor
    · exact le_trans (by norm_num : (0:ℚ) ≤ 1/10) (le_max_left _ _)
    · exact max_le (by norm_num) (min_le_left _ _)

/-- At most three geographic fields exist. -/
theorem geoCount_le_three (g : GeoContext) : geoCount g ≤ 3 := by
  unfold geoCount
  split_ifs <;> omega

/-- C1 (corrected): a query of fewer than 3 words with empty session
history is NOT flagged as a follow-up (`_detect_follow_up` returns false
outright on empty history, before the short-query rule), and its
`context_confidence` is strictly below the confidence of the same query
with at least one prior turn (where the short-query rule does fire). -/
theorem extract_short_query_confidence (query : String) (intent : IntentResult)
    (history : List Msg) (hw : (pyWords query).length < 3) (hh : history ≠ []) :
    (contextExtract [] query intent).is_follow_up = false ∧
    (contextExtract [] query intent).context_confidence <
      (contextExtract history query intent).context_confidence := by
  have hne : history.isEmpty = false := by
    simpa [List.isEmpty_iff] using hh
  have hle : (pyWords query).length ≤ 3 := by omega
  have hfE : detectFollowUp query [] = false := rfl
  have hfH : detectFollowUp query history = true := by
    unfold detectFollowUp
    rw [hne]
    simp only [Bool.false_eq_true, if_false]
    split_ifs with h1 h2
    · rfl
    · rfl
    · exfalso
      revert h2
      simp [hle, hne]
  have hccE : (contextExtract [] query intent).context_confidence =
      contextConfidence [] (extractGeographic [] query) false := by
    show contextConfidence [] (extractGeographic [] query) (detectFollowUp query []) = _
    rw [hfE]
  have hccH : (contextExtract history query intent).context_confidence =
      contextConfidence history (extractGeographic history query) true := by
    show contextConfidence history (extractGeographic history query)
      (detectFollowUp query history) = _
    rw [hfH]
  have hgE : ((geoCount (extractGeographic [] query) : ℕ) : ℚ) ≤ 3 := by
    exact_mod_cast geoCount_le_three _
  have hgE0 : (0:ℚ) ≤ ((geoCount (extractGeographic [] query) : ℕ) : ℚ) := by positivity
  have hE : contextConfidence [] (extractGeographic [] query) false ≤ 1201/2000 := by
    simp only [contextConfidence, List.isEmpty_nil, Bool.not_true, Bool.false_eq_true,
      if_false, Bool.false_and, Bool.and_false]
    refine clamp01_le_of _ _ (by norm_num) ?_
    have hr := pyRound3_le_add (1/2 + 1/10 * ((geoCount (extractGeographic [] query) : ℕ) : ℚ) / 3)
    linarith
  have hgH0 : (0:ℚ) ≤ ((geoCount (extractGeographic history query) : ℕ) : ℚ) := by positivity
  have hlen : (1:ℚ) ≤ ((history.length : ℕ) : ℚ) := by
    have : 1 ≤ history.length := List.length_pos.mpr hh
    exact_mod_cast this
  have hmin : (1:ℚ) ≤ min ((history.length : ℕ) : ℚ) 5 := le_min hlen (by norm_num)
  have hH : (1439:ℚ)/2000 ≤ contextConfidence history (extractGeographic history query) true := by
    simp only [contextConfidence, hne, Bool.not_false, Bool.true_and, Bool.and_true,
      Bool.false_eq_true, if_false, if_true]
    refine le_clamp01_of _ _ (by norm_num) ?_
    have hr := pyRound3_sub_le (1/2 + 1/10 * min ((history.length : ℕ) : ℚ) 5 / 5 +
      1/10 * ((geoCount (extractGeographic history query) : ℕ) : ℚ) / 3 + 1/5)
    linarith
  refine ⟨hfE, ?_⟩
  rw [hccE, hccH]
  calc contextConfidence [] (extractGeographic [] query) false
      ≤ 1201/2000 := hE
    _ < 1439/2000 := by norm_num
    _ ≤ contextConfidence history (extractGeographic history query) true := hH

/-- C1 counterexample: with empty history the one-word query `"hi"` is not
flagged as a follow-up, contradicting the claimed short-query rule for
empty histories. -/
theorem extract_short_query_empty_history_cex :
    (pyWords "hi").length < 3 ∧
    (contextExtract [] "hi" { primary_intent := .SEARCH }).is_follow_up = false :=
  ⟨by decide, rfl⟩

/-- Witness for the C1 theorem: query `"hi"` against the empty history and
against one prior turn. -/
theorem extract_short_query_confidence_witness :
    ((pyWords "hi").length < 3 ∧ ([msgNV] : List Msg) ≠ []) ∧
    ((contextExtract [] "hi" intentFix).is_follow_up = false ∧
     (contextExtract [] "hi" intentFix).context_confidence <
       (contextExtract [msgNV] "hi" intentFix).context_confidence) :=
  ⟨⟨by decide, by simp⟩,
    extract_short_query_confidence "hi" intentFix [msgNV] (by decide) (by simp)⟩

/-- C8 (amended): on the spec's round-trip instance — a query whose only
geographic signal is Nevada, spelled as the state name or as the code —
`_extract_geographic` yields the state code `NV` either way. -/
theorem extract_geographic_nevada_roundtrip :
    (extractGeographic [] "customers in Nevada").state = some "NV" ∧
    (extractGeographic [] "customers in NV").state = some "NV" := by
  constructor <;> decide

/-- C8 counterexample: two queries identical except for `Nevada` vs `NV`
for which the extracted states differ — the scan takes the first signal
found, and the name table reaches `iowa` before `nevada` while the
code scan sees `NV` directly. -/
theorem extract_geographic_nevada_roundtrip_cex :
    (extractGeographic [] "Iowa Nevada").state = some "IA" ∧
    (extractGeographic [] "Iowa NV").state = some "NV" := by
  constructor <;> decide

/-- C6: a ClientError whose message indicates an access/credentials problem
clears the `_available` flag and the call falls back; every subsequent call
keeps falling back (flag stays false until explicit reinitialization);
non-access failures fall back without clearing the flag; and with no search
results the fallback is the static AI-unavailable message. -/
theorem nova_access_error_unavailable (model msg query : String)
    (sr : SearchResult) (kc : KnowledgeContext)
    (h : (strContains msg "Access" || strContains (pyLower msg) "credentials") = true) :
    novaGenerate model true (.clientError msg) query sr kc =
      (fallbackResponse query sr kc, false) ∧
    (∀ calls : List (ConverseOutcome × String × SearchResult × KnowledgeContext),
      (novaGenerateSeq model false calls).1 =
        calls.map (fun c => fallbackResponse c.2.1 c.2.2.1 c.2.2.2) ∧
      (novaGenerateSeq model false calls).2 = false) ∧
    (∀ (msg2 q2 : String) (sr2 : SearchResult) (kc2 : KnowledgeContext),
      strContains msg2 "Access" = false →
      strContains (pyLower msg2) "credentials" = false →
      novaGenerate model true (.clientError msg2) q2 sr2 kc2 =
        (fallbackResponse q2 sr2 kc2, true)) ∧
    (∀ (q2 : String) (sr2 : SearchResult) (kc2 : KnowledgeContext),
      novaGenerate model true .otherError q2 sr2 kc2 =
        (fallbackResponse q2 sr2 kc2, true)) ∧
    (∀ (q2 : String) (kc2 : KnowledgeContext) (strat : SearchStrategy),
      (fallbackResponse q2 { strategy_used := strat } kc2).response_text =
        "AI features are not available. Please use direct search or autocomplete endpoints.") := by
  refine ⟨?_, ?_, ?_, ?_, ?_⟩
  · simp [novaGenerate, h]
  · intro calls
    induction calls with
    | nil => exact ⟨rfl, rfl⟩
    | cons c rest ih =>
      obtain ⟨o, q2, sr2, kc2⟩ := c
      simp only [novaGenerateSeq, novaGenerate, Bool.not_false, if_true, List.map_cons]
      exact ⟨by rw [ih.1], ih.2⟩
  · intro msg2 q2 sr2 kc2 h1 h2
    simp [novaGenerate, h1, h2]
  · intro q2 sr2 kc2
    simp [novaGenerate]
  · intro q2 kc2 strat
    rfl

/-- Witness for the C6 theorem at the concrete message `"Access denied"`. -/
theorem nova_access_error_unavailable_witness :
    (strContains "Access denied" "Access" ||
      strContains (pyLower "Access denied") "credentials") = true ∧
    novaGenerate "nova-micro" true (.clientError "Access denied") "q"
        { strategy_used := .EXACT } {} =
      (fallbackResponse "q" { strategy_used := .EXACT } {}, false) :=
  ⟨by decide, (nova_access_error_unavailable "nova-micro" "Access denied" "q"
      { strategy_used := .EXACT } {} (by decide)).1⟩

/-- C3: a guardrail-blocked query short-circuits with `blocked = true`, the
blocked message as response text, and no cache write and no session save —
both stores come back unchanged. -/
theorem route_guardrail_block (env : RouterEnv) (cache : List (String × String))
    (sessions : List (String × Session)) (query : String) (bypassCache : Bool)
    (guardrails : Option GuardrailFlags) (sessionId : Option String) (msg : String)
    (h : env.check (pyStrip query) guardrails = some msg) :
    (route env cache sessions query bypassCache guardrails sessionId).response.blocked = true ∧
    (route env cache sessions query bypassCache guardrails sessionId).response.response = msg ∧
    (route env cache sessions query bypassCache guardrails sessionId).cache = cache ∧
    (route env cache sessions query bypassCache guardrails sessionId).sessions = sessions := by
  simp [route, h]

/-- Witness for the C3 theorem: the spec's scenario query `"ssn for
CRID-1"` against blocking guardrails and empty stores. -/
theorem route_guardrail_block_witness :
    envBlocked.check (pyStrip "ssn for CRID-1") none = some "Blocked: sensitive data request" ∧
    ((route envBlocked [] [] "ssn for CRID-1" false none none).response.blocked = true ∧
     (route envBlocked [] [] "ssn for CRID-1" false none none).response.response =
       "Blocked: sensitive data request" ∧
     (route envBlocked [] [] "ssn for CRID-1" false none none).cache = [] ∧
     (route envBlocked [] [] "ssn for CRID-1" false none none).sessions = []) :=
  ⟨rfl, route_guardrail_block envBlocked [] [] "ssn for CRID-1" false none none _ rfl⟩

/-- C5: the cache is consulted only when `bypass_cache` is false and the
session carries no prior turns; and on the database-success and
pipeline-success paths the response is cached exactly when the saved
session — the session after appending the user and assistant turns — holds
at most those two messages. -/
theorem route_cache_policy (env : RouterEnv) (cache : List (String × String))
    (sessions : List (String × Session)) (query : String) (bypassCache : Bool)
    (guardrails : Option GuardrailFlags) (sessionId : Option String) :
    ((route env cache sessions query bypassCache guardrails sessionId).cacheConsulted = true →
      bypassCache = false ∧
        (sessionGet sessions sessionId env.newSessionId).messages = []) ∧
    (∀ s : Session,
      (route env cache sessions query bypassCache guardrails sessionId).savedSession = some s →
      ((route env cache sessions query bypassCache guardrails sessionId).cacheWrote = true ↔
        s.messages.length ≤ 2)) := by
  have hcons : (!bypassCache &&
      (sessionGet sessions sessionId env.newSessionId).messages.isEmpty) = true →
      bypassCache = false ∧ (sessionGet sessions sessionId env.newSessionId).messages = [] := by
    intro hc
    rw [Bool.and_eq_true] at hc
    exact ⟨by simpa using hc.1, List.isEmpty_iff.mp hc.2⟩
  simp only [route]
  split
  · exact ⟨by simp, by simp⟩
  · split
    · refine ⟨fun hc => hcons hc, by simp⟩
    · split
      · next outDb hdbb =>
        by_cases hrt : (env.findRoute (pyStrip query)).1 = RouteType.DATABASE
        · rw [if_pos hrt] at hdbb
          by_cases hsucc : (env.dbExecute
              ((env.findRoute (pyStrip query)).2.getD "search_customers")
              (pyStrip query)).success = true
          · rw [if_pos hsucc] at hdbb
            obtain rfl := Option.some.inj hdbb
            refine ⟨fun hc => hcons hc, ?_⟩
            intro s hs
            obtain rfl := Option.some.inj hs
            simp
          · rw [if_neg hsucc] at hdbb
            cases hdbb
        · rw [if_neg hrt] at hdbb
          cases hdbb
      · constructor
        · intro hc
          revert hc
          repeat' split
          all_goals (intro hc; exact hcons hc)
        · intro s hs
          revert hs
          repeat' split
          all_goals intro hs
          all_goals
            first
              | (obtain rfl := Option.some.inj hs; simp)
              | cases hs

/-- Witness for the C5 theorem: a first-turn pipeline answer on empty
stores saves a two-message session and therefore caches. -/
theorem route_cache_policy_witness :
    (route envNova [] [] "hello" false none none).savedSession =
      some { session_id := "s-new", messages := [("user", "hello"), ("assistant", "ok")] } ∧
    ((route envNova [] [] "hello" false none none).cacheWrote = true ↔
      ({ session_id := "s-new",
         messages := [("user", "hello"), ("assistant", "ok")] } : Session).messages.length ≤ 2) :=
  ⟨rfl, (route_cache_policy envNova [] [] "hello" false none none).2 _ rfl⟩

end Icda
